import Mathlib

/-!
Verification development for the play-vnt virtual-population simulator:
the tick scheduler, the `VirtualBot` state machine and its manager
(`server/core/virtual_bots.py`), and the bot-flavored user object
(`server/users/bot.py`).

The manager and scheduler modules themselves are not part of the provided
sources; their behavior is modelled from the specification (and the unit
tests in `server/tests/test_virtual_bots.py`, which pin concrete values
such as default cooldown bounds and broadcast payloads).  Randomness is
modelled as an explicit seed stream, following the spec's design note that
the random source is an injectable dependency: `random.randint(a, b)`
becomes `drawInt r a b = a + r % (b - a + 1)` for a seed `r` consumed from
the stream, and `random.choice`/probability rolls consume seeds the same
way.
-/

namespace PlayVnt

/-- Modelled from the spec: the four states of the per-agent finite state
machine (`VirtualBotState` in `server/core/virtual_bots.py`, absent from
the provided sources). -/
inductive VirtualBotState where
  | offline
  | online_idle
  | in_game
  | leaving_game
deriving DecidableEq, Repr

/-- Modelled from the spec: the serialized string value of a state, as
stored by `save_state()` (the tests compare against
`VirtualBotState.ONLINE_IDLE.value`). -/
def VirtualBotState.value : VirtualBotState → String
  | .offline => "offline"
  | .online_idle => "online_idle"
  | .in_game => "in_game"
  | .leaving_game => "leaving_game"

/-- Modelled from the spec: parsing a persisted state string back into the
enum, the inverse of `VirtualBotState.value`. -/
def VirtualBotState.ofValue : String → Option VirtualBotState
  | "offline" => some .offline
  | "online_idle" => some .online_idle
  | "in_game" => some .in_game
  | "leaving_game" => some .leaving_game
  | _ => none

/-- Modelled from the spec: the `VirtualBot` data record
(`server/core/virtual_bots.py`, absent from the provided sources): one
synthetic identity's state and counters. -/
structure VirtualBot where
  name : String
  state : VirtualBotState := .offline
  online_ticks : Nat := 0
  target_online_ticks : Nat := 0
  cooldown_ticks : Nat := 0
  think_ticks : Nat := 0
  table_id : Option String := none
  game_join_tick : Nat := 0
  logout_after_game : Bool := false
deriving DecidableEq, Repr

/-- Modelled from the spec: `VirtualBotConfig`, the `[virtual_bots]`
configuration section.  The default `min_offline_ticks` of 200 is pinned
by `test_restore_bot_user_conflict_sets_offline`. -/
structure VirtualBotConfig where
  names : List String := []
  min_idle_ticks : Nat := 10
  max_idle_ticks : Nat := 30
  min_online_ticks : Nat := 300
  max_online_ticks : Nat := 900
  min_offline_ticks : Nat := 200
  max_offline_ticks : Nat := 600
  max_tables_per_game : Nat := 0
deriving DecidableEq, Repr

/-- Configuration validity enforced by `load_config`: every `min_*`/`max_*`
pair satisfies `min ≤ max`. -/
def VirtualBotConfig.valid (cfg : VirtualBotConfig) : Prop :=
  cfg.min_idle_ticks ≤ cfg.max_idle_ticks ∧
  cfg.min_online_ticks ≤ cfg.max_online_ticks ∧
  cfg.min_offline_ticks ≤ cfg.max_offline_ticks

instance (cfg : VirtualBotConfig) : Decidable cfg.valid := by
  unfold VirtualBotConfig.valid; infer_instance

/-- The seed stream standing in for the injected random source. -/
abbrev RSeq := List Nat

/-- Consume one seed from the stream (0 when exhausted). -/
def takeR (rs : RSeq) : Nat × RSeq := (rs.headD 0, rs.tail)

/-- `random.randint a b` driven by seed `r`: a value in `[a, b]`
whenever `a ≤ b`. -/
def drawInt (r a b : Nat) : Nat := a + r % (b - a + 1)

/-- An entry in the live user registry: either a bot-flavored user object
registered by the manager, or a real (human) connection, whose payload the
manager never inspects beyond its existence. -/
inductive UserEntry where
  | botUser (name : String)
  | realUser (payload : Nat)
deriving DecidableEq, Repr

/-- Whether a registry entry is a real (non-bot) user. -/
def UserEntry.isReal : UserEntry → Bool
  | .botUser _ => false
  | .realUser _ => true

/-- Modelled from the spec: a `Game` collaborator, reduced to the fields
and call logs the manager's interactions observe (`execute_action` calls
are recorded in `actionLog`, localized broadcasts in `broadcastLog`). -/
structure Game where
  gtype : String
  gname : String
  host : String
  status : String
  players : List String
  minPlayers : Nat
  maxPlayers : Nat
  actionLog : List (String × String)
  broadcastLog : List String
deriving DecidableEq, Repr

/-- Modelled from the spec: a `Table` collaborator; `removeLog` records
`remove_member` calls. -/
structure Table where
  tid : String
  game : Game
  members : List String
  removeLog : List String
deriving DecidableEq, Repr

/-- Modelled from the spec: the slice of the `Server` collaborator the
manager touches — live user registry, per-user UI state, table manager,
and the two broadcast channels. -/
structure ServerState where
  users : List (String × UserEntry)
  userStates : List (String × String)
  tables : List Table
  broadcasts : List (String × String × String)
  tableBroadcasts : List (String × String)
deriving DecidableEq, Repr

/-- Dictionary read, first binding wins (Python dict lookup). -/
def lookupKey {α : Type} : List (String × α) → String → Option α
  | [], _ => none
  | p :: t, k => if p.1 = k then some p.2 else lookupKey t k

/-- Dictionary delete. -/
def eraseKey {α : Type} : List (String × α) → String → List (String × α)
  | [], _ => []
  | p :: t, k => if p.1 = k then eraseKey t k else p :: eraseKey t k

/-- Dictionary write: replace or append the binding for `k`. -/
def setEntry {α : Type} (l : List (String × α)) (k : String) (v : α) :
    List (String × α) :=
  (k, v) :: eraseKey l k

/-- Whether `name` is currently held by a live real (human) user. -/
def isRealUser (srv : ServerState) (name : String) : Bool :=
  match lookupKey srv.users name with
  | some u => u.isReal
  | none => false

/-- The manager's bot map, iterated in insertion order. -/
abbrev BotMap := List VirtualBot

/-- Lookup a tracked bot by name. -/
def findBot : BotMap → String → Option VirtualBot
  | [], _ => none
  | b :: t, n => if b.name = n then some b else findBot t n

/-- Replace the tracked record whose name matches `b'`. -/
def setBot (bots : BotMap) (b' : VirtualBot) : BotMap :=
  bots.map (fun b => if b.name = b'.name then b' else b)

/-- The outcome of one manager step on one bot: updated server state,
updated record, success flag, remaining seed stream. -/
structure StepResult where
  srv : ServerState
  bot : VirtualBot
  ok : Bool
  rs : RSeq
deriving DecidableEq, Repr

/-- Modelled from the spec (§4.3.5): `_restore_bot_user(bot)`.  If the
live registry holds `bot.name` as a real (non-bot) user, the conflict
branch forces `OFFLINE` with a fresh cooldown in the offline range and
leaves the registry untouched.  Otherwise a bot-flavored user is
registered, UI state is set to the main menu, the bot goes
`ONLINE_IDLE` with `online_ticks = 0` and a fresh `target_online_ticks`
in the online range, and a `user-online` presence broadcast with the
standard sound cue is emitted. -/
def restoreBotUser (cfg : VirtualBotConfig) (srv : ServerState)
    (b : VirtualBot) (rs : RSeq) : StepResult :=
  if isRealUser srv b.name then
    let (r, rs') := takeR rs
    { srv := srv,
      bot := { b with
        state := .offline, table_id := none, online_ticks := 0,
        cooldown_ticks := drawInt r cfg.min_offline_ticks cfg.max_offline_ticks },
      ok := false, rs := rs' }
  else
    let (r, rs') := takeR rs
    { srv := { srv with
        users := setEntry srv.users b.name (.botUser b.name),
        userStates := setEntry srv.userStates b.name "main_menu",
        broadcasts := srv.broadcasts ++ [("user-online", b.name, "online.ogg")] },
      bot := { b with
        state := .online_idle, online_ticks := 0,
        target_online_ticks := drawInt r cfg.min_online_ticks cfg.max_online_ticks },
      ok := true, rs := rs' }

/-- Modelled from the spec (§4.3.6): `_take_bot_offline(bot)` — remove
registry and UI-state entries, broadcast `user-offline`, set `OFFLINE`
and draw a cooldown in the offline range. -/
def takeBotOffline (cfg : VirtualBotConfig) (srv : ServerState)
    (b : VirtualBot) (rs : RSeq) : StepResult :=
  let (r, rs') := takeR rs
  { srv := { srv with
      users := eraseKey srv.users b.name,
      userStates := eraseKey srv.userStates b.name,
      broadcasts := srv.broadcasts ++ [("user-offline", b.name, "offline.ogg")] },
    bot := { b with
      state := .offline, online_ticks := 0,
      cooldown_ticks := drawInt r cfg.min_offline_ticks cfg.max_offline_ticks },
    ok := true, rs := rs' }

/-- Lookup a live table by id (`TableManager.get_table`). -/
def findTable : List Table → String → Option Table
  | [], _ => none
  | t :: ts, tid => if t.tid = tid then some t else findTable ts tid

/-- Apply `f` to the table with the given id. -/
def updateTable (tables : List Table) (tid : String) (f : Table → Table) :
    List Table :=
  tables.map (fun t => if t.tid = tid then f t else t)

/-- The effect on a table of the bot leaving it: the `leave` action is
executed against the game (recorded in `actionLog`, removing the player),
then the bot is removed from the member list (recorded in `removeLog`). -/
def leaveTableUpdate (name : String) (t : Table) : Table :=
  { t with
    members := t.members.filter (fun m => m ≠ name),
    removeLog := t.removeLog ++ [name],
    game := { t.game with
      players := t.game.players.filter (fun p => p ≠ name),
      actionLog := t.game.actionLog ++ [(name, "leave")] } }

/-- Modelled from the spec (§4.3.7): `_leave_current_table(bot)` —
resolve the table by `table_id`, look up the bot's player record by name,
execute the standard `leave` action and remove the member; always clear
`table_id`; a missing table or player is a no-op, not an error. -/
def leaveCurrentTable (srv : ServerState) (b : VirtualBot) :
    ServerState × VirtualBot :=
  let b' := { b with table_id := none }
  match b.table_id with
  | none => (srv, b')
  | some tid =>
    match findTable srv.tables tid with
    | none => (srv, b')
    | some t =>
      if t.game.players.contains b.name then
        ({ srv with tables := updateTable srv.tables tid (leaveTableUpdate b.name) }, b')
      else (srv, b')

/-- The currently waiting tables a bot may join: status `waiting`, seats
open, not hosted by this same bot. -/
def waitingTablesFor (srv : ServerState) (b : VirtualBot) : List Table :=
  srv.tables.filter (fun t =>
    t.game.status = "waiting" ∧ t.members.length < t.game.maxPlayers ∧
    t.game.host ≠ b.name)

/-- The effect on a table of the bot joining it: member added via the
human entry point, player added to the game, join notification broadcast. -/
def joinTableUpdate (name : String) (t : Table) : Table :=
  { t with
    members := t.members ++ [name],
    game := { t.game with
      players := t.game.players ++ [name],
      broadcastLog := t.game.broadcastLog ++ ["table-joined"] } }

/-- Modelled from the spec (§4.3.7): `_try_join_game(bot)` — pick a
random waiting table, join it, set `IN_GAME`/`table_id`, move the UI
state to `in_game`, record `game_join_tick`; report whether a join
occurred. -/
def tryJoinGame (srv : ServerState) (b : VirtualBot) (rs : RSeq)
    (tick : Nat) : StepResult :=
  match waitingTablesFor srv b with
  | [] => { srv := srv, bot := b, ok := false, rs := rs }
  | w :: ws =>
    let (r, rs') := takeR rs
    let t := (w :: ws).getD (r % (w :: ws).length) w
    { srv := { srv with
        tables := updateTable srv.tables t.tid (joinTableUpdate b.name),
        userStates := setEntry srv.userStates b.name "in_game" },
      bot := { b with state := .in_game, table_id := some t.tid, game_join_tick := tick },
      ok := true, rs := rs' }

/-- Modelled from the spec (§4.3.7): `_count_bot_owned_tables(type)` —
live tables whose game type matches and whose host is a currently
tracked bot identity. -/
def countBotOwnedTables (bots : BotMap) (srv : ServerState) (gtype : String) : Nat :=
  (srv.tables.filter (fun t =>
    t.game.gtype = gtype ∧ (findBot bots t.game.host).isSome)).length

/-- Modelled from the spec (§4.3.7): `_can_create_game_type(type)` —
true iff the cap is 0 (unlimited) or the bot-owned count is below it. -/
def canCreateGameType (cfg : VirtualBotConfig) (bots : BotMap)
    (srv : ServerState) (gtype : String) : Bool :=
  cfg.max_tables_per_game == 0 ||
    decide (countBotOwnedTables bots srv gtype < cfg.max_tables_per_game)

/-- A registered game-type descriptor (`GameRegistry.get_all()` element):
its type key and display name. -/
structure GameType where
  gtype : String
  gname : String
deriving DecidableEq, Repr

/-- The table produced by `create_table` plus `initialize_lobby`: hosted
by the bot, status `waiting`, host seated as first member and player.
(The min/max player counts are game-specific; the representative 2/4 of
the test doubles is used — no claim depends on them.) -/
def newGameTable (g : GameType) (hostName : String) (tid : String) : Table :=
  { tid := tid,
    game := {
      gtype := g.gtype, gname := g.gname, host := hostName,
      status := "waiting", players := [hostName], minPlayers := 2,
      maxPlayers := 4, actionLog := [], broadcastLog := [] },
    members := [hostName], removeLog := [] }

/-- Modelled from the spec (§4.3.7): `_try_create_game(bot)` — filter the
registered game types by `_can_create_game_type`; with none qualifying,
fall back to `_try_join_game`; otherwise pick one at random and ask the
table manager to create a table (`createResult` is the collaborator's
answer: `none` models a creation failure, which is treated as a failed
attempt with no state mutation and falls back to `_try_join_game`). -/
def tryCreateGame (cfg : VirtualBotConfig) (bots : BotMap) (srv : ServerState)
    (b : VirtualBot) (reg : List GameType) (createResult : Option String)
    (rs : RSeq) (tick : Nat) : StepResult :=
  match reg.filter (fun g => canCreateGameType cfg bots srv g.gtype) with
  | [] => tryJoinGame srv b rs tick
  | g0 :: gs =>
    let (r, rs') := takeR rs
    let g := (g0 :: gs).getD (r % (g0 :: gs).length) g0
    match createResult with
    | none => tryJoinGame srv b rs' tick
    | some tid =>
      { srv := { srv with
          tables := srv.tables ++ [newGameTable g b.name tid],
          userStates := setEntry srv.userStates b.name "in_game",
          tableBroadcasts := srv.tableBroadcasts ++ [(b.name, g.gname)] },
        bot := { b with state := .in_game, table_id := some tid, game_join_tick := tick },
        ok := true, rs := rs' }

/-- Modelled from the spec (§9, open question): the bare-literal
think-tick gating threshold, preserved as a named constant. -/
def thinkGateTicks : Nat := 5

/-- Modelled from the spec/tests: the fixed logout-after-game chance,
0.33, expressed in percent. -/
def logoutChancePct : Nat := 33

/-- Modelled from the spec (§9, open question): the bare-literal chance
(percent) of starting to leave a game when the think gate fires. -/
def leaveGameChancePct : Nat := 20

/-- Modelled from the spec (§9, open question): the bare-literal chance
(percent) of going offline once `online_ticks` reaches the target. -/
def goOfflineChancePct : Nat := 50

/-- Modelled from the spec (§9, open question): the bare-literal split
(percent) between attempting a join and attempting a create. -/
def joinChancePct : Nat := 50

/-- Modelled from the spec (§4.3): `_start_leaving_game(bot)` — decide
`logout_after_game` by a weighted random boolean, enter `LEAVING_GAME`,
reset `cooldown_ticks` to zero. -/
def startLeavingGame (b : VirtualBot) (rs : RSeq) : VirtualBot × RSeq :=
  let (r, rs') := takeR rs
  ({ b with
     state := .leaving_game, cooldown_ticks := 0,
     logout_after_game := decide (r % 100 < logoutChancePct) }, rs')

/-- One tick spent online: bump `online_ticks` and `think_ticks`. -/
def bumpCounters (b : VirtualBot) : VirtualBot :=
  { b with online_ticks := b.online_ticks + 1, think_ticks := b.think_ticks + 1 }

/-- Reset the think-tick gate after it fires. -/
def resetThink (b : VirtualBot) : VirtualBot := { b with think_ticks := 0 }

/-- One tick waiting offline: decrement the cooldown. -/
def decCooldown (b : VirtualBot) : VirtualBot :=
  { b with cooldown_ticks := b.cooldown_ticks - 1 }

/-- Modelled from the spec (§4.3, OFFLINE dispatch): decrement the
cooldown; at zero attempt to come online via the restore path (whose
conflict branch re-rolls a fresh cooldown and stays `OFFLINE`). -/
def processOfflineBot (cfg : VirtualBotConfig) (srv : ServerState)
    (b : VirtualBot) (rs : RSeq) : StepResult :=
  if (decCooldown b).cooldown_ticks = 0 then
    restoreBotUser cfg srv (decCooldown b) rs
  else { srv := srv, bot := decCooldown b, ok := true, rs := rs }

/-- Modelled from the spec (§4.3, ONLINE_IDLE dispatch): bump
`online_ticks` and `think_ticks`; when the gate fires, reset it and
either go offline (if the target is met and the roll succeeds) or
attempt a join or a create. -/
def processOnlineIdleBot (cfg : VirtualBotConfig) (bots : BotMap)
    (srv : ServerState) (b : VirtualBot) (reg : List GameType)
    (createResult : Option String) (rs : RSeq) (tick : Nat) : StepResult :=
  if (bumpCounters b).think_ticks < thinkGateTicks then
    { srv := srv, bot := bumpCounters b, ok := true, rs := rs }
  else if (bumpCounters b).target_online_ticks ≤ (bumpCounters b).online_ticks ∧
      (takeR rs).1 % 100 < goOfflineChancePct then
    takeBotOffline cfg srv (resetThink (bumpCounters b)) (takeR rs).2
  else if (takeR (takeR rs).2).1 % 100 < joinChancePct then
    tryJoinGame srv (resetThink (bumpCounters b)) (takeR (takeR rs).2).2 tick
  else
    tryCreateGame cfg bots srv (resetThink (bumpCounters b)) reg createResult
      (takeR (takeR rs).2).2 tick

/-- Modelled from the spec (§4.3, IN_GAME dispatch): bump the counters;
when the gate fires, roll whether to begin leaving. -/
def processInGameBot (b : VirtualBot) (rs : RSeq) : VirtualBot × RSeq :=
  if (bumpCounters b).think_ticks < thinkGateTicks then (bumpCounters b, rs)
  else if (takeR rs).1 % 100 < leaveGameChancePct then
    startLeavingGame (resetThink (bumpCounters b)) (takeR rs).2
  else (resetThink (bumpCounters b), (takeR rs).2)

/-- Modelled from the spec (§4.3, LEAVING_GAME dispatch): execute the
leave against the held table, clear `table_id`, then transition to
`OFFLINE` (if `logout_after_game`) or `ONLINE_IDLE`. -/
def processLeavingBot (cfg : VirtualBotConfig) (srv : ServerState)
    (b : VirtualBot) (rs : RSeq) : StepResult :=
  if (leaveCurrentTable srv b).2.logout_after_game then
    takeBotOffline cfg (leaveCurrentTable srv b).1 (leaveCurrentTable srv b).2 rs
  else
    { srv := (leaveCurrentTable srv b).1,
      bot := { (leaveCurrentTable srv b).2 with state := .online_idle },
      ok := true, rs := rs }

/-- The fresh table id the table manager hands back for a bot-created
table during tick processing. -/
def freshTableId (b : VirtualBot) (tick : Nat) : String :=
  "bot-table-" ++ b.name ++ "-" ++ toString tick

/-- Modelled from the spec (§4.3): the per-bot dispatch of
`process_tick()` on the bot's state. -/
def processBot (cfg : VirtualBotConfig) (bots : BotMap) (reg : List GameType)
    (srv : ServerState) (b : VirtualBot) (rs : RSeq) (tick : Nat) : StepResult :=
  match b.state with
  | .offline => processOfflineBot cfg srv b rs
  | .online_idle =>
    processOnlineIdleBot cfg bots srv b reg (some (freshTableId b tick)) rs tick
  | .in_game =>
    let p := processInGameBot b rs
    { srv := srv, bot := p.1, ok := true, rs := p.2 }
  | .leaving_game => processLeavingBot cfg srv b rs

/-- Modelled from the spec (§4.3, §7): the per-bot loop of
`process_tick()` with fault injection.  A name in `faulty` stands for a
bot whose processing raises; the exception is caught and logged at the
per-bot boundary, that record is left untouched, and the loop proceeds
to the next bot. -/
def processBots (cfg : VirtualBotConfig) (bots0 : BotMap) (reg : List GameType)
    (faulty : List String) (tick : Nat) :
    BotMap → ServerState → RSeq → BotMap × ServerState × RSeq
  | [], srv, rs => ([], srv, rs)
  | b :: bs, srv, rs =>
    if b.name ∈ faulty then
      let p := processBots cfg bots0 reg faulty tick bs srv rs
      (b :: p.1, p.2)
    else
      let st := processBot cfg bots0 reg srv b rs tick
      let p := processBots cfg bots0 reg faulty tick bs st.srv st.rs
      (st.bot :: p.1, p.2)

/-- Modelled from the spec (§4.3): `process_tick()` over the whole bot
map, with the set of bots whose processing raises given by `faulty`. -/
def processTickF (cfg : VirtualBotConfig) (reg : List GameType)
    (faulty : List String) (bots : BotMap) (srv : ServerState) (rs : RSeq)
    (tick : Nat) : BotMap × ServerState × RSeq :=
  processBots cfg bots reg faulty tick bots srv rs

/-- `process_tick()` with no bot failing. -/
def processTick (cfg : VirtualBotConfig) (reg : List GameType)
    (bots : BotMap) (srv : ServerState) (rs : RSeq) (tick : Nat) :
    BotMap × ServerState × RSeq :=
  processTickF cfg reg [] bots srv rs tick

/-- Result of the creation phase of `fill_server()`. -/
structure CreatePhase where
  bots : BotMap
  created : List String
  rs : RSeq
deriving DecidableEq, Repr

/-- The `OFFLINE` record `fill_server()` creates for a fresh name, with
a randomized cooldown in the offline range. -/
def freshBot (cfg : VirtualBotConfig) (n : String) (r : Nat) : VirtualBot :=
  { name := n, state := .offline,
    cooldown_ticks := drawInt r cfg.min_offline_ticks cfg.max_offline_ticks }

/-- Modelled from the spec (§4.3.2): phase one of `fill_server()` — walk
the shuffled name pool, skipping every name already present as a live
real user (never shadowed) and every name already tracked; create each
remaining name as an `OFFLINE` record with a randomized cooldown in the
offline range. -/
def createBots (cfg : VirtualBotConfig) (srv : ServerState) :
    List String → BotMap → RSeq → CreatePhase
  | [], bots, rs => { bots := bots, created := [], rs := rs }
  | n :: ns, bots, rs =>
    if isRealUser srv n || (findBot bots n).isSome then
      createBots cfg srv ns bots rs
    else
      { createBots cfg srv ns (bots ++ [freshBot cfg n (takeR rs).1]) (takeR rs).2 with
        created := n :: (createBots cfg srv ns
          (bots ++ [freshBot cfg n (takeR rs).1]) (takeR rs).2).created }

/-- Result of the bring-online phase of `fill_server()`. -/
structure OnlinePhase where
  bots : BotMap
  srv : ServerState
  rs : RSeq
  count : Nat
deriving DecidableEq, Repr

/-- Modelled from the spec (§4.3.2): phase two of `fill_server()` —
bring each named freshly created bot online through the restore path of
§4.3.5, counting the successful restores. -/
def bringOnline (cfg : VirtualBotConfig) :
    List String → BotMap → ServerState → RSeq → OnlinePhase
  | [], bots, srv, rs => { bots := bots, srv := srv, rs := rs, count := 0 }
  | n :: ns, bots, srv, rs =>
    match findBot bots n with
    | none => bringOnline cfg ns bots srv rs
    | some b =>
      let st := restoreBotUser cfg srv b rs
      let p := bringOnline cfg ns (setBot bots st.bot) st.srv st.rs
      { p with count := p.count + (if st.ok then 1 else 0) }

/-- Result of `fill_server()`. -/
structure FillResult where
  bots : BotMap
  srv : ServerState
  rs : RSeq
  added : Nat
  online : Nat
deriving DecidableEq, Repr

/-- Modelled from the spec (§4.3.2): `fill_server()` — shuffle the
configured pool (the shuffled order is the explicit `shuffled`
argument), create the fresh bots `OFFLINE`, immediately bring the first
`floor(bots_added / 2)` of the newly created bots online via the
restore path, and return `(bots_added, bots_brought_online)`. -/
def fillServer (cfg : VirtualBotConfig) (bots : BotMap) (srv : ServerState)
    (shuffled : List String) (rs : RSeq) : FillResult :=
  let c := createBots cfg srv shuffled bots rs
  let added := c.created.length
  let br := bringOnline cfg (c.created.take (added / 2)) c.bots srv c.rs
  { bots := br.bots, srv := br.srv, rs := br.rs, added := added,
    online := br.count }

/-- A persisted row of the virtual-bot store (§6 schema). -/
structure BotRow where
  name : String
  state : String
  online_ticks : Nat
  target_online_ticks : Nat
  table_id : Option String
  game_join_tick : Nat
deriving DecidableEq, Repr

/-- Modelled from the spec (§4.3.8): the row `save_state()` upserts for
one tracked bot. -/
def rowOfBot (b : VirtualBot) : BotRow :=
  { name := b.name, state := b.state.value, online_ticks := b.online_ticks,
    target_online_ticks := b.target_online_ticks, table_id := b.table_id,
    game_join_tick := b.game_join_tick }

/-- Modelled from the spec (§4.3.8): `save_state()` — upsert a row for
every tracked bot, regardless of state. -/
def saveState (bots : BotMap) : List BotRow := bots.map rowOfBot

/-- The `VirtualBot` record instantiated from a persisted row with
already-parsed state. -/
def botOfRow (row : BotRow) (st : VirtualBotState) : VirtualBot :=
  { name := row.name, state := st, online_ticks := row.online_ticks,
    target_online_ticks := row.target_online_ticks, cooldown_ticks := 0,
    think_ticks := 0, table_id := row.table_id,
    game_join_tick := row.game_join_tick, logout_after_game := false }

/-- Result of `load_state()`. -/
structure LoadResult where
  bots : BotMap
  srv : ServerState
  rs : RSeq
  count : Nat
deriving DecidableEq, Repr

/-- Modelled from the spec (§4.3.8): the per-row loop of `load_state()`
— rows whose state is `OFFLINE` (or unparseable) are discarded; every
other row is instantiated as a `VirtualBot` record and, when its name is
in the configured pool, re-registered into the live registry through the
conflict-aware restore path of §4.3.5: a live real user under the name
wins (the record is forced `OFFLINE` with a fresh cooldown in the
offline range and the real user's entry is untouched); otherwise the bot
user is registered with its UI state at the main menu and an online
presence broadcast, the record keeping the persisted counters as the
round-trip property (§8.3) requires. -/
def loadRows (cfg : VirtualBotConfig) :
    List BotRow → BotMap → ServerState → RSeq → LoadResult
  | [], bots, srv, rs => { bots := bots, srv := srv, rs := rs, count := 0 }
  | row :: rows, bots, srv, rs =>
    match VirtualBotState.ofValue row.state with
    | none => loadRows cfg rows bots srv rs
    | some st =>
      if st = .offline then loadRows cfg rows bots srv rs
      else if row.name ∈ cfg.names then
        if isRealUser srv row.name then
          loadRows cfg rows
            (bots ++ [{ botOfRow row st with
              state := .offline, table_id := none, online_ticks := 0,
              cooldown_ticks :=
                drawInt (takeR rs).1 cfg.min_offline_ticks cfg.max_offline_ticks }])
            srv (takeR rs).2
        else
          { loadRows cfg rows (bots ++ [botOfRow row st])
              { srv with
                users := setEntry srv.users row.name (.botUser row.name),
                userStates := setEntry srv.userStates row.name "main_menu",
                broadcasts :=
                  srv.broadcasts ++ [("user-online", row.name, "online.ogg")] }
              rs with
            count := (loadRows cfg rows (bots ++ [botOfRow row st])
              { srv with
                users := setEntry srv.users row.name (.botUser row.name),
                userStates := setEntry srv.userStates row.name "main_menu",
                broadcasts :=
                  srv.broadcasts ++ [("user-online", row.name, "online.ogg")] }
              rs).count + 1 }
      else
        loadRows cfg rows (bots ++ [botOfRow row st]) srv rs

/-- Modelled from the spec (§4.3.8): `load_state()` after the bot map
has been cleared: read all persisted rows and rebuild the population,
returning the count of bots successfully restored online. -/
def loadState (cfg : VirtualBotConfig) (rows : List BotRow)
    (srv : ServerState) (rs : RSeq) : LoadResult :=
  loadRows cfg rows [] srv rs

/-- Modelled from the spec (§4.1): the scheduler's observable state —
whether the loop is live, how many ticks have fired, and how many
callback exceptions were caught and logged. -/
structure SchedState where
  running : Bool
  fired : Nat
  errorsLogged : Nat
deriving DecidableEq, Repr

/-- Modelled from the spec (§4.1): `TickScheduler.start()` — begin the
loop; idempotent if already running. -/
def schedStart (s : SchedState) : SchedState := { s with running := true }

/-- Modelled from the spec (§4.1): `TickScheduler.stop()` — signal the
loop to end after the current tick; no new tick begins afterward. -/
def schedStop (s : SchedState) : SchedState := { s with running := false }

/-- Modelled from the spec (§4.1): one scheduling opportunity of the
loop.  When live, the registered callback runs for tick `s.fired`
(`cb n = Except.error ()` models the callback raising on tick `n`); an
exception is caught and logged and does not terminate the loop.  When
stopped, nothing fires. -/
def schedTick (cb : Nat → Except Unit Unit) (s : SchedState) : SchedState :=
  if s.running then
    match cb s.fired with
    | .ok _ => { s with fired := s.fired + 1 }
    | .error _ => { s with fired := s.fired + 1, errorsLogged := s.errorsLogged + 1 }
  else s

/-- The loop given `n` consecutive scheduling opportunities. -/
def schedRun (cb : Nat → Except Unit Unit) : Nat → SchedState → SchedState
  | 0, s => s
  | n + 1, s => schedRun cb n (schedTick cb s)

/-- The bot-flavored user object of `server/users/bot.py`: the identity
fields its constructor stores.  Bots carry no UI or connection state, so
the unchanged object returned by each UI method below is the whole
effect of the call (the Python method body is `pass`, returning
`None`). -/
structure BotUserObj where
  uuid : String
  username : String
  locale : String
deriving DecidableEq, Repr

/-- `Bot.is_bot` (`server/users/bot.py`): always `True`. -/
def BotUserObj.is_bot (_ : BotUserObj) : Bool := true

/-- `Bot.speak`: a no-op; the text is discarded. -/
def BotUserObj.speak (b : BotUserObj) (_text : String)
    (_buffer : String := "misc") : BotUserObj := b

/-- `Bot.play_sound`: a no-op. -/
def BotUserObj.play_sound (b : BotUserObj) (_name : String)
    (_volume : Nat := 100) (_pan : Int := 0) (_pitch : Nat := 100) :
    BotUserObj := b

/-- `Bot.play_music`: a no-op. -/
def BotUserObj.play_music (b : BotUserObj) (_name : String)
    (_looping : Bool := true) : BotUserObj := b

/-- `Bot.stop_music`: a no-op. -/
def BotUserObj.stop_music (b : BotUserObj) : BotUserObj := b

/-- `Bot.play_ambience`: a no-op. -/
def BotUserObj.play_ambience (b : BotUserObj) (_loop : String)
    (_intro : String := "") (_outro : String := "") : BotUserObj := b

/-- `Bot.stop_ambience`: a no-op. -/
def BotUserObj.stop_ambience (b : BotUserObj) : BotUserObj := b

/-- `Bot.show_menu`: a no-op; the menu is discarded. -/
def BotUserObj.show_menu (b : BotUserObj) (_menu_id : String)
    (_items : List String) (_multiletter : Bool := true)
    (_escape_behavior : Nat := 0) (_position : Option Nat := none)
    (_grid_enabled : Bool := false) (_grid_width : Nat := 1) :
    BotUserObj := b

/-- `Bot.update_menu`: a no-op. -/
def BotUserObj.update_menu (b : BotUserObj) (_menu_id : String)
    (_items : List String) (_position : Option Nat := none)
    (_selection_id : Option String := none) : BotUserObj := b

/-- `Bot.remove_menu`: a no-op. -/
def BotUserObj.remove_menu (b : BotUserObj) (_menu_id : String) :
    BotUserObj := b

/-- `Bot.show_editbox`: a no-op. -/
def BotUserObj.show_editbox (b : BotUserObj) (_input_id : String)
    (_prompt : String) (_default_value : String := "")
    (_multiline : Bool := false) (_read_only : Bool := false) :
    BotUserObj := b

/-- `Bot.remove_editbox`: a no-op. -/
def BotUserObj.remove_editbox (b : BotUserObj) (_input_id : String) :
    BotUserObj := b

/-- `Bot.clear_ui`: a no-op. -/
def BotUserObj.clear_ui (b : BotUserObj) : BotUserObj := b

/-! ## Concrete fixtures

Small executable states used to instantiate the theorems on concrete
inputs, mirroring the scenarios of `test_virtual_bots.py`. -/

/-- A server with nothing registered. -/
def emptyServer : ServerState :=
  { users := [], userStates := [], tables := [], broadcasts := [],
    tableBroadcasts := [] }

/-- A server where `Taken` is a live real user. -/
def serverTaken : ServerState :=
  { emptyServer with users := [("Taken", .realUser 0)] }

/-- A waiting table fixture hosted by `h` with game type `g`. -/
def mkWaitingTable (tid g h : String) : Table :=
  { tid := tid,
    game := {
      gtype := g, gname := g, host := h, status := "waiting",
      players := [], minPlayers := 2, maxPlayers := 4, actionLog := [],
      broadcastLog := [] },
    members := [], removeLog := [] }

/-- The table `Zed` occupies in the leave scenario. -/
def tableZed : Table :=
  { tid := "T1",
    game := {
      gtype := "g", gname := "G", host := "Zed", status := "playing",
      players := ["Zed"], minPlayers := 2, maxPlayers := 4, actionLog := [],
      broadcastLog := [] },
    members := ["Zed"], removeLog := [] }

/-- The server of the leave scenario: `Zed` is registered and seated at
`T1`. -/
def serverZed : ServerState :=
  { emptyServer with users := [("Zed", .botUser "Zed")], tables := [tableZed] }

/-- The bot of the leave scenario. -/
def botZed : VirtualBot :=
  { name := "Zed", state := .in_game, table_id := some "T1" }

/-- The capacity scenario: two bot-hosted `scopa` tables, one bot-hosted
`ninetynine` table, one human-hosted `scopa` table. -/
def serverCap : ServerState :=
  { emptyServer with tables := [mkWaitingTable "1" "scopa" "BotA",
      mkWaitingTable "2" "scopa" "BotB",
      mkWaitingTable "3" "ninetynine" "BotA"] }

/-- The tracked bots of the capacity scenario. -/
def botsCap : BotMap := [{ name := "BotA" }, { name := "BotB" }]

/-- A table of the create-fallback scenario: bot-hosted `scopa`, already
playing (so not joinable). -/
def mkPlayingTable (tid h : String) : Table :=
  { tid := tid,
    game := {
      gtype := "scopa", gname := "Scopa", host := h, status := "playing",
      players := [h], minPlayers := 2, maxPlayers := 4, actionLog := [],
      broadcastLog := [] },
    members := [h], removeLog := [] }

/-- The create-fallback scenario: two bot-hosted `scopa` tables at the
cap, nothing waiting. -/
def serverAtCap : ServerState :=
  { emptyServer with
    users := [("Creator", .botUser "Creator")],
    tables := [mkPlayingTable "1" "BotA", mkPlayingTable "2" "BotB"] }

/-- The create-fallback scenario after one waiting table (hosted by
`other`) appears. -/
def serverAtCapWaiting : ServerState :=
  { serverAtCap with
    tables := serverAtCap.tables ++ [mkWaitingTable "table-1" "g" "other"] }

/-- The tracked bots of the create-fallback scenario. -/
def botsAtCap : BotMap :=
  [{ name := "BotA" }, { name := "BotB" }, { name := "Creator", state := .online_idle }]

/-- The bot attempting the create in the fallback scenario. -/
def botCreator : VirtualBot := { name := "Creator", state := .online_idle }

/-- The online bot of the persistence scenario. -/
def botAlpha : VirtualBot :=
  { name := "Alpha", state := .online_idle, online_ticks := 5,
    target_online_ticks := 10 }

/-- The offline bot of the persistence scenario. -/
def botSleepy : VirtualBot := { name := "Sleepy" }

/-- The configuration of the persistence scenario. -/
def cfgAlpha : VirtualBotConfig := { names := ["Alpha"] }

/-- The configuration of the fill scenario
(`test_virtual_bots_load_config_and_fill_server`). -/
def cfgFill : VirtualBotConfig :=
  { names := ["BotA", "BotB", "BotC", "BotD"], min_idle_ticks := 10,
    max_idle_ticks := 20, min_online_ticks := 30, max_online_ticks := 40,
    min_offline_ticks := 50, max_offline_ticks := 60,
    max_tables_per_game := 0 }

/-! ## The table-occupancy invariant -/

/-- The states in which a bot holds a table. -/
def inTableState (s : VirtualBotState) : Bool :=
  s == .in_game || s == .leaving_game

/-- The spec's population invariant (§3): `table_id` is non-null iff the
state is `IN_GAME` or `LEAVING_GAME`. -/
def botInv (b : VirtualBot) : Prop :=
  b.table_id.isSome = inTableState b.state

instance (b : VirtualBot) : Decidable (botInv b) := by
  unfold botInv; infer_instance

/-- The invariant over a whole bot map. -/
def invAll (bots : BotMap) : Prop := ∀ b ∈ bots, botInv b

instance (bots : BotMap) : Decidable (invAll bots) := by
  unfold invAll; infer_instance

/-- How many exceptions one callback outcome contributes to the log. -/
def raisedCount : Except Unit Unit → Nat
  | .ok _ => 0
  | .error _ => 1

/-! ## Basic lemmas about the map and registry helpers -/

theorem drawInt_le (r a b : Nat) : a ≤ drawInt r a b := Nat.le_add_right a _

theorem drawInt_ge (r a b : Nat) (h : a ≤ b) : drawInt r a b ≤ b := by
  have hpos : 0 < b - a + 1 := Nat.succ_pos _
  have hlt : r % (b - a + 1) < b - a + 1 := Nat.mod_lt r hpos
  have : r % (b - a + 1) ≤ b - a := Nat.lt_succ_iff.mp hlt
  calc a + r % (b - a + 1) ≤ a + (b - a) := Nat.add_le_add_left this a
    _ = b := Nat.add_sub_cancel' h

theorem lookupKey_eraseKey_ne {α : Type} (l : List (String × α)) (k n : String)
    (h : n ≠ k) : lookupKey (eraseKey l k) n = lookupKey l n := by
  induction l with
  | nil => rfl
  | cons p t ih =>
    by_cases hk : p.1 = k
    · have hpn : p.1 ≠ n := by rw [hk]; exact Ne.symm h
      have h1 : eraseKey (p :: t) k = eraseKey t k := by simp [eraseKey, hk]
      have h2 : lookupKey (p :: t) n = lookupKey t n := by simp [lookupKey, hpn]
      rw [h1, h2, ih]
    · have h1 : eraseKey (p :: t) k = p :: eraseKey t k := by simp [eraseKey, hk]
      by_cases hn : p.1 = n
      · rw [h1]; simp [lookupKey, hn]
      · rw [h1]; simp [lookupKey, hn, ih]

theorem lookupKey_setEntry_self {α : Type} (l : List (String × α)) (k : String)
    (v : α) : lookupKey (setEntry l k v) k = some v := by
  simp [setEntry, lookupKey]

theorem lookupKey_setEntry_ne {α : Type} (l : List (String × α)) (k n : String)
    (v : α) (h : n ≠ k) : lookupKey (setEntry l k v) n = lookupKey l n := by
  have hkn : k ≠ n := Ne.symm h
  simp only [setEntry, lookupKey, if_neg hkn]
  exact lookupKey_eraseKey_ne l k n h


theorem findBot_append (l1 l2 : BotMap) (n : String) :
    findBot (l1 ++ l2) n = (findBot l1 n).or (findBot l2 n) := by
  induction l1 with
  | nil => simp [findBot]
  | cons b t ih => by_cases h : b.name = n <;> simp [findBot, h, ih]

theorem setBot_cons (b : VirtualBot) (t : BotMap) (b' : VirtualBot) :
    setBot (b :: t) b' = (if b.name = b'.name then b' else b) :: setBot t b' := rfl

theorem findBot_setBot_ne (bots : BotMap) (b' : VirtualBot) (n : String)
    (h : b'.name ≠ n) : findBot (setBot bots b') n = findBot bots n := by
  induction bots with
  | nil => rfl
  | cons b t ih =>
    rw [setBot_cons]
    by_cases hb : b.name = b'.name
    · rw [if_pos hb]
      have hbn : b.name ≠ n := by rw [hb]; exact h
      show (if b'.name = n then some b' else findBot (setBot t b') n) =
        (if b.name = n then some b else findBot t n)
      rw [if_neg h, if_neg hbn, ih]
    · rw [if_neg hb]
      show (if b.name = n then some b else findBot (setBot t b') n) =
        (if b.name = n then some b else findBot t n)
      by_cases hn : b.name = n
      · rw [if_pos hn, if_pos hn]
      · rw [if_neg hn, if_neg hn, ih]

theorem findBot_setBot_isSome (bots : BotMap) (b' : VirtualBot) (n : String) :
    (findBot (setBot bots b') n).isSome = (findBot bots n).isSome := by
  induction bots with
  | nil => rfl
  | cons b t ih =>
    rw [setBot_cons]
    by_cases hb : b.name = b'.name
    · rw [if_pos hb]
      show (if b'.name = n then some b' else findBot (setBot t b') n).isSome =
        (if b.name = n then some b else findBot t n).isSome
      by_cases hn : b.name = n
      · have hb'n : b'.name = n := by rw [← hb]; exact hn
        rw [if_pos hb'n, if_pos hn]
        rfl
      · have hb'n : b'.name ≠ n := by rw [← hb]; exact hn
        rw [if_neg hb'n, if_neg hn, ih]
    · rw [if_neg hb]
      show (if b.name = n then some b else findBot (setBot t b') n).isSome =
        (if b.name = n then some b else findBot t n).isSome
      by_cases hn : b.name = n
      · rw [if_pos hn, if_pos hn]
      · rw [if_neg hn, if_neg hn, ih]

theorem findBot_setBot_found (bots : BotMap) (b' : VirtualBot) (n : String)
    (hn : b'.name = n) (h : (findBot bots n).isSome = true) :
    findBot (setBot bots b') n = some b' := by
  induction bots with
  | nil => simp [findBot] at h
  | cons b t ih =>
    rw [setBot_cons]
    by_cases hbn : b.name = n
    · have hb : b.name = b'.name := by rw [hbn, hn]
      rw [if_pos hb]
      show (if b'.name = n then some b' else findBot (setBot t b') n) = some b'
      rw [if_pos hn]
    · have hb : b.name ≠ b'.name := by rw [hn]; exact hbn
      rw [if_neg hb]
      show (if b.name = n then some b else findBot (setBot t b') n) = some b'
      rw [if_neg hbn]
      have h' : (findBot t n).isSome = true := by
        have : findBot (b :: t) n = findBot t n := by
          show (if b.name = n then some b else findBot t n) = findBot t n
          rw [if_neg hbn]
        rw [this] at h
        exact h
      exact ih h'

/-- Registering a bot-flavored entry never makes any name a real user. -/
theorem isRealUser_setEntry_bot (srv : ServerState) (k m : String)
    (vUsers : List (String × String)) (vTables : List Table)
    (vBr : List (String × String × String)) (vTb : List (String × String))
    (h : isRealUser srv m = false) :
    isRealUser { srv with
      users := setEntry srv.users k (.botUser k),
      userStates := vUsers, tables := vTables, broadcasts := vBr,
      tableBroadcasts := vTb } m = false := by
  by_cases hm : m = k
  · subst hm
    simp [isRealUser, lookupKey_setEntry_self, UserEntry.isReal]
  · simp [isRealUser, lookupKey_setEntry_ne srv.users k m _ hm]
    simp [isRealUser] at h
    exact h

/-! ## Claim theorems -/

/-- C10: for every bot-flavored user object, `is_bot` returns `True`,
and every UI/output method (`speak`, sound/music/ambience controls, menu
and editbox management, `clear_ui`) is a no-op that produces no output
and leaves the object — hence all state — unchanged: UI output directed
at a bot is silently discarded. -/
theorem c10_bot_user_ui_discarded (b : BotUserObj) :
    b.is_bot = true ∧
    (∀ t buf, b.speak t buf = b) ∧
    (∀ nm v p pi, b.play_sound nm v p pi = b) ∧
    (∀ nm lp, b.play_music nm lp = b) ∧
    b.stop_music = b ∧
    (∀ lp i o, b.play_ambience lp i o = b) ∧
    b.stop_ambience = b ∧
    (∀ m i ml e p g w, b.show_menu m i ml e p g w = b) ∧
    (∀ m i p s, b.update_menu m i p s = b) ∧
    (∀ m, b.remove_menu m = b) ∧
    (∀ i p d ml ro, b.show_editbox i p d ml ro = b) ∧
    (∀ i, b.remove_editbox i = b) ∧
    b.clear_ui = b :=
  ⟨rfl, fun _ _ => rfl, fun _ _ _ _ => rfl, fun _ _ => rfl, rfl,
   fun _ _ _ => rfl, rfl, fun _ _ _ _ _ _ _ => rfl, fun _ _ _ _ => rfl,
   fun _ => rfl, fun _ _ _ _ _ => rfl, fun _ => rfl, rfl⟩

theorem schedTick_running (cb : Nat → Except Unit Unit) (s : SchedState)
    (h : s.running = true) :
    (schedTick cb s).running = true ∧ (schedTick cb s).fired = s.fired + 1 ∧
    (schedTick cb s).errorsLogged = s.errorsLogged + raisedCount (cb s.fired) := by
  unfold schedTick
  rw [if_pos h]
  cases hcb : cb s.fired with
  | ok u => exact ⟨h, rfl, rfl⟩
  | error u => exact ⟨h, rfl, rfl⟩

theorem schedRun_spec (cb : Nat → Except Unit Unit) (n : Nat)
    (s : SchedState) (h : s.running = true) :
    (schedRun cb n s).running = true ∧ (schedRun cb n s).fired = s.fired + n := by
  induction n generalizing s with
  | zero => exact ⟨h, rfl⟩
  | succ n ih =>
    obtain ⟨h1, h2, _⟩ := schedTick_running cb s h
    have hrec := ih (schedTick cb s) h1
    refine ⟨hrec.1, ?_⟩
    show (schedRun cb n (schedTick cb s)).fired = s.fired + (n + 1)
    rw [hrec.2, h2]
    omega

/-- C9: a callback exception during a tick is caught, logged, and never
terminates the scheduler loop: from a running state, after any `n`
scheduling opportunities — whatever subset of the callbacks raised —
the loop is still running and exactly `n` ticks fired (so the tick after
a raising one still fires); each tick logs exactly the raised
exceptions; and after `stop()` no new tick begins, so the loop ends
only via `stop()`. -/
theorem c9_scheduler_survives_callback_errors (cb : Nat → Except Unit Unit)
    (s s' : SchedState) (n : Nat) (hrun : s.running = true) :
    (schedRun cb n s).running = true ∧
    (schedRun cb n s).fired = s.fired + n ∧
    (schedTick cb s).errorsLogged = s.errorsLogged + raisedCount (cb s.fired) ∧
    schedTick cb (schedStop s') = schedStop s' := by
  obtain ⟨h1, h2⟩ := schedRun_spec cb n s hrun
  refine ⟨h1, h2, (schedTick_running cb s hrun).2.2, ?_⟩
  unfold schedTick schedStop
  rfl

/-- C9 at a concrete input: a callback that raises on every tick, three
scheduling opportunities from a freshly started scheduler. -/
theorem c9_scheduler_witness :
    (schedRun (fun _ => Except.error ()) 3 ⟨true, 0, 0⟩).running = true ∧
    (schedRun (fun _ => Except.error ()) 3 ⟨true, 0, 0⟩).fired = 0 + 3 ∧
    (schedTick (fun _ => Except.error ()) ⟨true, 0, 0⟩).errorsLogged =
      0 + raisedCount (Except.error ()) ∧
    schedTick (fun _ => Except.error ()) (schedStop ⟨true, 5, 0⟩) =
      schedStop ⟨true, 5, 0⟩ :=
  c9_scheduler_survives_callback_errors (fun _ => Except.error ())
    ⟨true, 0, 0⟩ ⟨true, 5, 0⟩ 3 rfl

/-- C6: restoring a bot whose name is held in the live registry by a
real (non-bot) user forces the bot `OFFLINE` with `cooldown_ticks`
inside the configured offline range and returns the server — in
particular the real user's registry entry — completely unchanged. -/
theorem c6_restore_conflict_defers (cfg : VirtualBotConfig)
    (srv : ServerState) (b : VirtualBot) (rs : RSeq)
    (hreal : isRealUser srv b.name = true)
    (hcfg : cfg.min_offline_ticks ≤ cfg.max_offline_ticks) :
    (restoreBotUser cfg srv b rs).bot.state = .offline ∧
    cfg.min_offline_ticks ≤ (restoreBotUser cfg srv b rs).bot.cooldown_ticks ∧
    (restoreBotUser cfg srv b rs).bot.cooldown_ticks ≤ cfg.max_offline_ticks ∧
    (restoreBotUser cfg srv b rs).srv = srv ∧
    lookupKey (restoreBotUser cfg srv b rs).srv.users b.name =
      lookupKey srv.users b.name := by
  unfold restoreBotUser
  rw [if_pos hreal]
  exact ⟨rfl, drawInt_le _ _ _, drawInt_ge _ _ _ hcfg, rfl, rfl⟩

/-- C6 at a concrete input: the default configuration, a server where
`Taken` is a live real user, and a bot of the same name. -/
theorem c6_restore_conflict_witness :
    (restoreBotUser {} serverTaken { name := "Taken", state := .online_idle } []).bot.state
      = .offline ∧
    (200 : Nat) ≤ (restoreBotUser {} serverTaken
      { name := "Taken", state := .online_idle } []).bot.cooldown_ticks ∧
    (restoreBotUser {} serverTaken
      { name := "Taken", state := .online_idle } []).bot.cooldown_ticks ≤ 600 ∧
    (restoreBotUser {} serverTaken
      { name := "Taken", state := .online_idle } []).srv = serverTaken ∧
    lookupKey (restoreBotUser {} serverTaken
      { name := "Taken", state := .online_idle } []).srv.users "Taken" =
      lookupKey serverTaken.users "Taken" :=
  c6_restore_conflict_defers {} serverTaken
    { name := "Taken", state := .online_idle } [] (by decide) (by decide)

/-- C5: `_can_create_game_type(g)` is `False` iff `max_tables_per_game`
is positive and the bot-owned table count for `g` has reached it; it is
always `True` at cap 0; and the count used (`_count_bot_owned_tables`)
ignores a table of type `g` whose host name is not a tracked bot
identity. -/
theorem c5_can_create_game_type_cap (cfg : VirtualBotConfig) (bots : BotMap)
    (srv : ServerState) (g : String) (t : Table)
    (_hgame : t.game.gtype = g) (hhuman : findBot bots t.game.host = none) :
    (canCreateGameType cfg bots srv g = false ↔
      0 < cfg.max_tables_per_game ∧
      cfg.max_tables_per_game ≤ countBotOwnedTables bots srv g) ∧
    (cfg.max_tables_per_game = 0 → canCreateGameType cfg bots srv g = true) ∧
    countBotOwnedTables bots { srv with tables := srv.tables ++ [t] } g =
      countBotOwnedTables bots srv g := by
  refine ⟨?_, ?_, ?_⟩
  · simp only [canCreateGameType, Bool.or_eq_false_iff, beq_eq_false_iff_ne,
      decide_eq_false_iff_not, Nat.not_lt]
    constructor
    · rintro ⟨h1, h2⟩
      exact ⟨Nat.pos_of_ne_zero h1, h2⟩
    · rintro ⟨h1, h2⟩
      exact ⟨Nat.pos_iff_ne_zero.mp h1, h2⟩
  · intro h
    simp [canCreateGameType, h]
  · simp [countBotOwnedTables, List.filter_append, hhuman]

/-- C5 at a concrete input: the capacity scenario with cap 2, game
`scopa`, and a human-hosted `scopa` table. -/
theorem c5_can_create_witness :
    (canCreateGameType { max_tables_per_game := 2 } botsCap serverCap "scopa" = false ↔
      0 < 2 ∧ 2 ≤ countBotOwnedTables botsCap serverCap "scopa") ∧
    ((2 : Nat) = 0 →
      canCreateGameType { max_tables_per_game := 2 } botsCap serverCap "scopa" = true) ∧
    countBotOwnedTables botsCap
      { serverCap with
        tables := serverCap.tables ++ [mkWaitingTable "4" "scopa" "HumanPlayer"] }
      "scopa" = countBotOwnedTables botsCap serverCap "scopa" :=
  c5_can_create_game_type_cap { max_tables_per_game := 2 } botsCap serverCap
    "scopa" (mkWaitingTable "4" "scopa" "HumanPlayer") (by decide) (by decide)

theorem leaveCurrentTable_eq (srv : ServerState) (b : VirtualBot) (tid : String)
    (h : b.table_id = some tid) :
    leaveCurrentTable srv b =
      (match findTable srv.tables tid with
       | none => (srv, { b with table_id := none })
       | some t =>
         if t.game.players.contains b.name then
           ({ srv with tables := updateTable srv.tables tid (leaveTableUpdate b.name) },
            { b with table_id := none })
         else (srv, { b with table_id := none })) := by
  unfold leaveCurrentTable
  rw [h]

theorem leaveCurrentTable_noTable (srv : ServerState) (b : VirtualBot)
    (tid : String) (h : b.table_id = some tid)
    (hft : findTable srv.tables tid = none) :
    leaveCurrentTable srv b = (srv, { b with table_id := none }) := by
  rw [leaveCurrentTable_eq srv b tid h, hft]

theorem leaveCurrentTable_found (srv : ServerState) (b : VirtualBot)
    (tid : String) (t : Table) (h : b.table_id = some tid)
    (hft : findTable srv.tables tid = some t)
    (hc : t.game.players.contains b.name = true) :
    leaveCurrentTable srv b =
      ({ srv with tables := updateTable srv.tables tid (leaveTableUpdate b.name) },
       { b with table_id := none }) := by
  rw [leaveCurrentTable_eq srv b tid h, hft]
  exact if_pos hc

theorem leaveCurrentTable_noPlayer (srv : ServerState) (b : VirtualBot)
    (tid : String) (t : Table) (h : b.table_id = some tid)
    (hft : findTable srv.tables tid = some t)
    (hc : t.game.players.contains b.name = false) :
    leaveCurrentTable srv b = (srv, { b with table_id := none }) := by
  rw [leaveCurrentTable_eq srv b tid h, hft]
  exact if_neg (by rw [hc]; exact Bool.false_ne_true)

theorem findTable_some_tid (tables : List Table) (tid : String) (t : Table)
    (h : findTable tables tid = some t) : t.tid = tid := by
  induction tables with
  | nil => simp [findTable] at h
  | cons u us ih =>
    by_cases hu : u.tid = tid
    · unfold findTable at h
      rw [if_pos hu] at h
      have hut := Option.some.inj h
      rw [← hut]
      exact hu
    · unfold findTable at h
      rw [if_neg hu] at h
      exact ih h

theorem findTable_updateTable (tables : List Table) (tid : String)
    (f : Table → Table) (t : Table) (hft : findTable tables tid = some t)
    (hf : (f t).tid = tid) :
    findTable (updateTable tables tid f) tid = some (f t) := by
  induction tables with
  | nil => simp [findTable] at hft
  | cons u us ih =>
    by_cases hu : u.tid = tid
    · have hut : u = t := by
        unfold findTable at hft
        rw [if_pos hu] at hft
        exact Option.some.inj hft
      subst hut
      show findTable ((if u.tid = tid then f u else u) :: updateTable us tid f)
        tid = some (f u)
      rw [if_pos hu]
      show (if (f u).tid = tid then some (f u)
        else findTable (updateTable us tid f) tid) = some (f u)
      rw [if_pos hf]
    · have hft' : findTable us tid = some t := by
        unfold findTable at hft
        rw [if_neg hu] at hft
        exact hft
      show findTable ((if u.tid = tid then f u else u) :: updateTable us tid f)
        tid = some (f t)
      rw [if_neg hu]
      show (if u.tid = tid then some u
        else findTable (updateTable us tid f) tid) = some (f t)
      rw [if_neg hu]
      exact ih hft'

/-- C8: `_leave_current_table(bot)` always clears `table_id`; when the
held table and the bot's player record both exist, exactly one
`remove_member` and one `execute_action(player, "leave")` are performed
against that table and its game (the table's logs each grow by exactly
that one call) and every other table is untouched; when the table or the
player no longer exists, the server is returned unchanged — a no-op,
not an error. -/
theorem c8_leave_current_table_spec (srv : ServerState) (b : VirtualBot)
    (tid : String) (htid : b.table_id = some tid) :
    (leaveCurrentTable srv b).2.table_id = none ∧
    (∀ t, findTable srv.tables tid = some t →
      t.game.players.contains b.name = true →
      findTable (leaveCurrentTable srv b).1.tables tid =
        some (leaveTableUpdate b.name t) ∧
      (leaveTableUpdate b.name t).removeLog = t.removeLog ++ [b.name] ∧
      (leaveTableUpdate b.name t).game.actionLog =
        t.game.actionLog ++ [(b.name, "leave")] ∧
      (∀ t' ∈ srv.tables, t'.tid ≠ tid → t' ∈ (leaveCurrentTable srv b).1.tables)) ∧
    (findTable srv.tables tid = none → (leaveCurrentTable srv b).1 = srv) ∧
    (∀ t, findTable srv.tables tid = some t →
      t.game.players.contains b.name = false →
      (leaveCurrentTable srv b).1 = srv) := by
  refine ⟨?_, ?_, ?_, ?_⟩
  · cases hft : findTable srv.tables tid with
    | none => rw [leaveCurrentTable_noTable srv b tid htid hft]
    | some t =>
      cases hc : t.game.players.contains b.name with
      | true => rw [leaveCurrentTable_found srv b tid t htid hft hc]
      | false => rw [leaveCurrentTable_noPlayer srv b tid t htid hft hc]
  · intro t hft hc
    rw [leaveCurrentTable_found srv b tid t htid hft hc]
    refine ⟨?_, rfl, rfl, ?_⟩
    · exact findTable_updateTable srv.tables tid (leaveTableUpdate b.name) t hft
        (findTable_some_tid srv.tables tid t hft)
    · intro t' ht' hne
      show t' ∈ updateTable srv.tables tid (leaveTableUpdate b.name)
      unfold updateTable
      have hid : (if t'.tid = tid then leaveTableUpdate b.name t' else t') = t' :=
        if_neg hne
      rw [← hid]
      exact List.mem_map_of_mem _ ht'
  · intro hft
    rw [leaveCurrentTable_noTable srv b tid htid hft]
  · intro t hft hc
    rw [leaveCurrentTable_noPlayer srv b tid t htid hft hc]

/-- C8 at a concrete input: the leave scenario of the tests — `Zed`
seated at `T1`, table and player present. -/
theorem c8_leave_witness :
    (leaveCurrentTable serverZed botZed).2.table_id = none ∧
    findTable (leaveCurrentTable serverZed botZed).1.tables "T1" =
      some (leaveTableUpdate "Zed" tableZed) ∧
    (leaveTableUpdate "Zed" tableZed).removeLog = tableZed.removeLog ++ ["Zed"] ∧
    (leaveTableUpdate "Zed" tableZed).game.actionLog =
      tableZed.game.actionLog ++ [("Zed", "leave")] :=
  ⟨(c8_leave_current_table_spec serverZed botZed "T1" rfl).1,
   ((c8_leave_current_table_spec serverZed botZed "T1" rfl).2.1 tableZed
     (by decide) (by decide)).1,
   ((c8_leave_current_table_spec serverZed botZed "T1" rfl).2.1 tableZed
     (by decide) (by decide)).2.1,
   ((c8_leave_current_table_spec serverZed botZed "T1" rfl).2.1 tableZed
     (by decide) (by decide)).2.2.1⟩

/-- C7: when `_try_create_game(bot)` finds no qualifying game type
(every registered type at the bot-owned cap) or table creation fails,
the attempt commits no state mutation and falls back to
`_try_join_game`; the fallback with no waiting table returns `False`
leaving the bot and server exactly as they were, and with a waiting
table present the bot joins it instead (`state = IN_GAME`, `table_id`
set to the joined table's id). -/
theorem c7_try_create_fallback (cfg : VirtualBotConfig) (bots : BotMap)
    (srv : ServerState) (b : VirtualBot) (reg : List GameType)
    (createResult : Option String) (rs : RSeq) (tick : Nat) :
    (reg.filter (fun g => canCreateGameType cfg bots srv g.gtype) = [] →
      tryCreateGame cfg bots srv b reg createResult rs tick =
        tryJoinGame srv b rs tick) ∧
    (∀ g0 gs, createResult = none →
      reg.filter (fun g => canCreateGameType cfg bots srv g.gtype) = g0 :: gs →
      tryCreateGame cfg bots srv b reg createResult rs tick =
        tryJoinGame srv b (takeR rs).2 tick) ∧
    (waitingTablesFor srv b = [] →
      tryJoinGame srv b rs tick = { srv := srv, bot := b, ok := false, rs := rs }) ∧
    (∀ w ws, waitingTablesFor srv b = w :: ws →
      (tryJoinGame srv b rs tick).ok = true ∧
      (tryJoinGame srv b rs tick).bot.state = .in_game ∧
      (tryJoinGame srv b rs tick).bot.table_id =
        some (((w :: ws).getD ((rs.headD 0) % (w :: ws).length) w).tid)) := by
  refine ⟨?_, ?_, ?_, ?_⟩
  · intro hq
    unfold tryCreateGame
    rw [hq]
  · intro g0 gs hcr hq
    subst hcr
    unfold tryCreateGame
    rw [hq]
  · intro hw
    unfold tryJoinGame
    rw [hw]
  · intro w ws hw
    unfold tryJoinGame
    rw [hw]
    exact ⟨rfl, rfl, rfl⟩

/-- C7 at a concrete input: only `scopa` is registered, two bot-hosted
`scopa` tables sit at cap 2; with nothing waiting the attempt returns
`False` with the bot and server unchanged, and with one waiting table it
joins `table-1` instead. -/
theorem c7_try_create_witness :
    tryCreateGame { max_tables_per_game := 2 } botsAtCap serverAtCap botCreator
      [{ gtype := "scopa", gname := "Scopa" }] (some "new-table") [] 0 =
      { srv := serverAtCap, bot := botCreator, ok := false, rs := [] } ∧
    (tryCreateGame { max_tables_per_game := 2 } botsAtCap serverAtCapWaiting
      botCreator [{ gtype := "scopa", gname := "Scopa" }] (some "new-table")
      [] 0).ok = true ∧
    (tryCreateGame { max_tables_per_game := 2 } botsAtCap serverAtCapWaiting
      botCreator [{ gtype := "scopa", gname := "Scopa" }] (some "new-table")
      [] 0).bot.state = .in_game ∧
    (tryCreateGame { max_tables_per_game := 2 } botsAtCap serverAtCapWaiting
      botCreator [{ gtype := "scopa", gname := "Scopa" }] (some "new-table")
      [] 0).bot.table_id = some "table-1" := by
  have h1 := (c7_try_create_fallback { max_tables_per_game := 2 } botsAtCap
    serverAtCap botCreator [{ gtype := "scopa", gname := "Scopa" }]
    (some "new-table") [] 0).1 (by decide)
  have h2 := (c7_try_create_fallback { max_tables_per_game := 2 } botsAtCap
    serverAtCap botCreator [{ gtype := "scopa", gname := "Scopa" }]
    (some "new-table") [] 0).2.2.1 (by decide)
  have h3 := (c7_try_create_fallback { max_tables_per_game := 2 } botsAtCap
    serverAtCapWaiting botCreator [{ gtype := "scopa", gname := "Scopa" }]
    (some "new-table") [] 0).1 (by decide)
  have h4 := (c7_try_create_fallback { max_tables_per_game := 2 } botsAtCap
    serverAtCapWaiting botCreator [{ gtype := "scopa", gname := "Scopa" }]
    (some "new-table") [] 0).2.2.2
    (mkWaitingTable "table-1" "g" "other") [] (by decide)
  refine ⟨?_, ?_, ?_, ?_⟩
  · rw [h1, h2]
  · rw [h3]
    exact h4.1
  · rw [h3]
    exact h4.2.1
  · rw [h3]
    exact h4.2.2

/-! ## Name preservation: no manager step renames a bot -/

theorem restoreBotUser_name (cfg : VirtualBotConfig) (srv : ServerState)
    (b : VirtualBot) (rs : RSeq) :
    (restoreBotUser cfg srv b rs).bot.name = b.name := by
  unfold restoreBotUser
  by_cases h : isRealUser srv b.name = true
  · rw [if_pos h]
  · rw [if_neg h]

theorem takeBotOffline_name (cfg : VirtualBotConfig) (srv : ServerState)
    (b : VirtualBot) (rs : RSeq) :
    (takeBotOffline cfg srv b rs).bot.name = b.name := rfl

theorem leaveCurrentTable_none (srv : ServerState) (b : VirtualBot)
    (h : b.table_id = none) :
    leaveCurrentTable srv b = (srv, { b with table_id := none }) := by
  unfold leaveCurrentTable
  rw [h]

theorem leaveCurrentTable_name (srv : ServerState) (b : VirtualBot) :
    (leaveCurrentTable srv b).2.name = b.name := by
  cases htid : b.table_id with
  | none => rw [leaveCurrentTable_none srv b htid]
  | some tid =>
    cases hft : findTable srv.tables tid with
    | none => rw [leaveCurrentTable_noTable srv b tid htid hft]
    | some t =>
      cases hc : t.game.players.contains b.name with
      | true => rw [leaveCurrentTable_found srv b tid t htid hft hc]
      | false => rw [leaveCurrentTable_noPlayer srv b tid t htid hft hc]

theorem tryJoinGame_name (srv : ServerState) (b : VirtualBot) (rs : RSeq)
    (tick : Nat) : (tryJoinGame srv b rs tick).bot.name = b.name := by
  unfold tryJoinGame
  cases hw : waitingTablesFor srv b with
  | nil => rfl
  | cons w ws => rfl

theorem tryCreateGame_name (cfg : VirtualBotConfig) (bots : BotMap)
    (srv : ServerState) (b : VirtualBot) (reg : List GameType)
    (cr : Option String) (rs : RSeq) (tick : Nat) :
    (tryCreateGame cfg bots srv b reg cr rs tick).bot.name = b.name := by
  unfold tryCreateGame
  cases hq : reg.filter (fun g => canCreateGameType cfg bots srv g.gtype) with
  | nil => exact tryJoinGame_name srv b rs tick
  | cons g0 gs =>
    cases cr with
    | none => exact tryJoinGame_name srv b _ tick
    | some tid => rfl

theorem startLeavingGame_name (b : VirtualBot) (rs : RSeq) :
    (startLeavingGame b rs).1.name = b.name := rfl

theorem processOfflineBot_name (cfg : VirtualBotConfig) (srv : ServerState)
    (b : VirtualBot) (rs : RSeq) :
    (processOfflineBot cfg srv b rs).bot.name = b.name := by
  unfold processOfflineBot
  by_cases h : (decCooldown b).cooldown_ticks = 0
  · rw [if_pos h]
    exact restoreBotUser_name cfg srv (decCooldown b) rs
  · rw [if_neg h]
    rfl

theorem processOnlineIdleBot_name (cfg : VirtualBotConfig) (bots : BotMap)
    (srv : ServerState) (b : VirtualBot) (reg : List GameType)
    (cr : Option String) (rs : RSeq) (tick : Nat) :
    (processOnlineIdleBot cfg bots srv b reg cr rs tick).bot.name = b.name := by
  unfold processOnlineIdleBot
  by_cases h1 : (bumpCounters b).think_ticks < thinkGateTicks
  · rw [if_pos h1]
    rfl
  · rw [if_neg h1]
    by_cases h2 : (bumpCounters b).target_online_ticks ≤
        (bumpCounters b).online_ticks ∧ (takeR rs).1 % 100 < goOfflineChancePct
    · rw [if_pos h2]
      exact takeBotOffline_name cfg srv _ _
    · rw [if_neg h2]
      by_cases h3 : (takeR (takeR rs).2).1 % 100 < joinChancePct
      · rw [if_pos h3]
        exact tryJoinGame_name srv _ _ tick
      · rw [if_neg h3]
        exact tryCreateGame_name cfg bots srv _ reg _ _ tick

theorem processInGameBot_name (b : VirtualBot) (rs : RSeq) :
    (processInGameBot b rs).1.name = b.name := by
  unfold processInGameBot
  by_cases h1 : (bumpCounters b).think_ticks < thinkGateTicks
  · rw [if_pos h1]
    rfl
  · rw [if_neg h1]
    by_cases h2 : (takeR rs).1 % 100 < leaveGameChancePct
    · rw [if_pos h2]
      exact startLeavingGame_name _ _
    · rw [if_neg h2]
      rfl

theorem processLeavingBot_name (cfg : VirtualBotConfig) (srv : ServerState)
    (b : VirtualBot) (rs : RSeq) :
    (processLeavingBot cfg srv b rs).bot.name = b.name := by
  unfold processLeavingBot
  by_cases h : (leaveCurrentTable srv b).2.logout_after_game = true
  · rw [if_pos h]
    rw [takeBotOffline_name]
    exact leaveCurrentTable_name srv b
  · rw [if_neg h]
    show (leaveCurrentTable srv b).2.name = b.name
    exact leaveCurrentTable_name srv b

theorem processBot_offline (cfg : VirtualBotConfig) (bots0 : BotMap)
    (reg : List GameType) (srv : ServerState) (b : VirtualBot) (rs : RSeq)
    (tick : Nat) (h : b.state = .offline) :
    processBot cfg bots0 reg srv b rs tick = processOfflineBot cfg srv b rs := by
  unfold processBot
  rw [h]

theorem processBot_online_idle (cfg : VirtualBotConfig) (bots0 : BotMap)
    (reg : List GameType) (srv : ServerState) (b : VirtualBot) (rs : RSeq)
    (tick : Nat) (h : b.state = .online_idle) :
    processBot cfg bots0 reg srv b rs tick =
      processOnlineIdleBot cfg bots0 srv b reg (some (freshTableId b tick)) rs tick := by
  unfold processBot
  rw [h]

theorem processBot_in_game (cfg : VirtualBotConfig) (bots0 : BotMap)
    (reg : List GameType) (srv : ServerState) (b : VirtualBot) (rs : RSeq)
    (tick : Nat) (h : b.state = .in_game) :
    processBot cfg bots0 reg srv b rs tick =
      { srv := srv, bot := (processInGameBot b rs).1, ok := true,
        rs := (processInGameBot b rs).2 } := by
  unfold processBot
  rw [h]

theorem processBot_leaving (cfg : VirtualBotConfig) (bots0 : BotMap)
    (reg : List GameType) (srv : ServerState) (b : VirtualBot) (rs : RSeq)
    (tick : Nat) (h : b.state = .leaving_game) :
    processBot cfg bots0 reg srv b rs tick = processLeavingBot cfg srv b rs := by
  unfold processBot
  rw [h]

theorem processBot_name (cfg : VirtualBotConfig) (bots0 : BotMap)
    (reg : List GameType) (srv : ServerState) (b : VirtualBot) (rs : RSeq)
    (tick : Nat) : (processBot cfg bots0 reg srv b rs tick).bot.name = b.name := by
  cases hstate : b.state with
  | offline =>
    rw [processBot_offline cfg bots0 reg srv b rs tick hstate]
    exact processOfflineBot_name cfg srv b rs
  | online_idle =>
    rw [processBot_online_idle cfg bots0 reg srv b rs tick hstate]
    exact processOnlineIdleBot_name cfg bots0 srv b reg _ rs tick
  | in_game =>
    rw [processBot_in_game cfg bots0 reg srv b rs tick hstate]
    exact processInGameBot_name b rs
  | leaving_game =>
    rw [processBot_leaving cfg bots0 reg srv b rs tick hstate]
    exact processLeavingBot_name cfg srv b rs

/-! ## Fault isolation of the per-bot loop -/

theorem processBots_cons (cfg : VirtualBotConfig) (bots0 : BotMap)
    (reg : List GameType) (faulty : List String) (tick : Nat) (b : VirtualBot)
    (bs : BotMap) (srv : ServerState) (rs : RSeq) :
    processBots cfg bots0 reg faulty tick (b :: bs) srv rs =
      if b.name ∈ faulty then
        (b :: (processBots cfg bots0 reg faulty tick bs srv rs).1,
         (processBots cfg bots0 reg faulty tick bs srv rs).2)
      else
        ((processBot cfg bots0 reg srv b rs tick).bot ::
          (processBots cfg bots0 reg faulty tick bs
            (processBot cfg bots0 reg srv b rs tick).srv
            (processBot cfg bots0 reg srv b rs tick).rs).1,
         (processBots cfg bots0 reg faulty tick bs
            (processBot cfg bots0 reg srv b rs tick).srv
            (processBot cfg bots0 reg srv b rs tick).rs).2) := by
  by_cases h : b.name ∈ faulty
  · rw [if_pos h]
    conv_lhs => unfold processBots
    rw [if_pos h]
  · rw [if_neg h]
    conv_lhs => unfold processBots
    rw [if_neg h]

theorem findBot_cons (b : VirtualBot) (t : BotMap) (n : String) :
    findBot (b :: t) n = if b.name = n then some b else findBot t n := rfl

theorem processBots_fault_isolated (cfg : VirtualBotConfig) (bots0 : BotMap)
    (reg : List GameType) (tick : Nat) (x : String) :
    ∀ (bs : BotMap) (srv : ServerState) (rs : RSeq),
      findBot (processBots cfg bots0 reg [x] tick bs srv rs).1 x = findBot bs x ∧
      (processBots cfg bots0 reg [x] tick bs srv rs).1.length = bs.length ∧
      (processBots cfg bots0 reg [x] tick bs srv rs).1.filter
          (fun b => b.name ≠ x) =
        (processBots cfg bots0 reg [] tick
          (bs.filter (fun b => b.name ≠ x)) srv rs).1 ∧
      (processBots cfg bots0 reg [x] tick bs srv rs).2 =
        (processBots cfg bots0 reg [] tick
          (bs.filter (fun b => b.name ≠ x)) srv rs).2 := by
  intro bs
  induction bs with
  | nil => intro srv rs; exact ⟨rfl, rfl, rfl, rfl⟩
  | cons b t ih =>
    intro srv rs
    by_cases hb : b.name = x
    · have hmem : b.name ∈ [x] := by rw [hb]; exact List.mem_singleton_self x
      have hL := processBots_cons cfg bots0 reg [x] tick b t srv rs
      rw [if_pos hmem] at hL
      have hfil : (b :: t).filter (fun b => b.name ≠ x) =
          t.filter (fun b => b.name ≠ x) :=
        List.filter_cons_of_neg (by simp [hb])
      obtain ⟨ih1, ih2, ih3, ih4⟩ := ih srv rs
      refine ⟨?_, ?_, ?_, ?_⟩
      · rw [hL]
        show findBot (b :: (processBots cfg bots0 reg [x] tick t srv rs).1) x =
          findBot (b :: t) x
        rw [findBot_cons, findBot_cons, if_pos hb, if_pos hb]
      · rw [hL]
        show (processBots cfg bots0 reg [x] tick t srv rs).1.length + 1 =
          t.length + 1
        rw [ih2]
      · rw [hL, hfil]
        show List.filter (fun b => b.name ≠ x)
            (b :: (processBots cfg bots0 reg [x] tick t srv rs).1) = _
        rw [List.filter_cons_of_neg (by simp [hb])]
        exact ih3
      · rw [hL, hfil]
        exact ih4
    · have hmem : b.name ∉ [x] := by
        intro hc
        exact hb (List.mem_singleton.mp hc)
      have hmem0 : b.name ∉ ([] : List String) := List.not_mem_nil b.name
      have hst := processBot_name cfg bots0 reg srv b rs tick
      have hL := processBots_cons cfg bots0 reg [x] tick b t srv rs
      rw [if_neg hmem] at hL
      have hfil : (b :: t).filter (fun b => b.name ≠ x) =
          b :: t.filter (fun b => b.name ≠ x) :=
        List.filter_cons_of_pos (by simp [hb])
      have hR := processBots_cons cfg bots0 reg [] tick b
        (t.filter (fun b => b.name ≠ x)) srv rs
      rw [if_neg hmem0] at hR
      obtain ⟨ih1, ih2, ih3, ih4⟩ := ih (processBot cfg bots0 reg srv b rs tick).srv
        (processBot cfg bots0 reg srv b rs tick).rs
      have hbn : (processBot cfg bots0 reg srv b rs tick).bot.name ≠ x := by
        rw [hst]; exact hb
      refine ⟨?_, ?_, ?_, ?_⟩
      · rw [hL, findBot_cons, if_neg hbn, ih1, findBot_cons, if_neg hb]
      · rw [hL]
        show (processBots cfg bots0 reg [x] tick t _ _).1.length + 1 =
          t.length + 1
        rw [ih2]
      · rw [hL, hfil, hR]
        show List.filter (fun b => b.name ≠ x)
            ((processBot cfg bots0 reg srv b rs tick).bot :: _) = _
        rw [List.filter_cons_of_pos (by simp [hbn])]
        show _ :: _ = _ :: _
        rw [ih3]
      · rw [hL, hfil, hR]
        exact ih4

/-- C2: an exception while processing one bot inside `process_tick()` is
caught at the per-bot boundary: the failing bot's record is left exactly
as it was (no partial mutation is committed), and the loop still
processes every other bot — the population size is unchanged, and the
surviving bots and the final server state are exactly those of the
per-bot loop run over the other bots' records alone (with the same
tracked-identity map for capacity counting), so one failing bot never
halts the loop or changes any other bot's state. -/
theorem c2_process_tick_fault_isolation (cfg : VirtualBotConfig)
    (reg : List GameType) (bots : BotMap) (srv : ServerState) (rs : RSeq)
    (tick : Nat) (x : String) :
    findBot (processTickF cfg reg [x] bots srv rs tick).1 x = findBot bots x ∧
    (processTickF cfg reg [x] bots srv rs tick).1.length = bots.length ∧
    (processTickF cfg reg [x] bots srv rs tick).1.filter
        (fun b => b.name ≠ x) =
      (processBots cfg bots reg [] tick (bots.filter (fun b => b.name ≠ x))
        srv rs).1 ∧
    (processTickF cfg reg [x] bots srv rs tick).2 =
      (processBots cfg bots reg [] tick (bots.filter (fun b => b.name ≠ x))
        srv rs).2 :=
  processBots_fault_isolated cfg bots reg tick x bots srv rs

/-! ## Preservation of the table-occupancy invariant -/

theorem isSome_false_eq_none {α : Type} (o : Option α) (h : o.isSome = false) :
    o = none := by
  cases o with
  | none => rfl
  | some v => simp [Option.isSome] at h

theorem botInv_restore (cfg : VirtualBotConfig) (srv : ServerState)
    (b : VirtualBot) (rs : RSeq) (hnone : b.table_id = none) :
    botInv (restoreBotUser cfg srv b rs).bot := by
  unfold restoreBotUser
  by_cases h : isRealUser srv b.name = true
  · rw [if_pos h]
    unfold botInv
    rfl
  · rw [if_neg h]
    unfold botInv
    show b.table_id.isSome = inTableState .online_idle
    rw [hnone]
    rfl

theorem restoreBotUser_table_id (cfg : VirtualBotConfig) (srv : ServerState)
    (b : VirtualBot) (rs : RSeq) (hnone : b.table_id = none) :
    (restoreBotUser cfg srv b rs).bot.table_id = none := by
  unfold restoreBotUser
  by_cases h : isRealUser srv b.name = true
  · rw [if_pos h]
  · rw [if_neg h]
    show b.table_id = none
    exact hnone

theorem botInv_takeOffline (cfg : VirtualBotConfig) (srv : ServerState)
    (b : VirtualBot) (rs : RSeq) (hnone : b.table_id = none) :
    botInv (takeBotOffline cfg srv b rs).bot := by
  unfold takeBotOffline botInv
  show b.table_id.isSome = inTableState .offline
  rw [hnone]
  rfl

theorem botInv_tryJoin (srv : ServerState) (b : VirtualBot) (rs : RSeq)
    (tick : Nat) (hb : botInv b) : botInv (tryJoinGame srv b rs tick).bot := by
  unfold tryJoinGame
  cases hw : waitingTablesFor srv b with
  | nil => exact hb
  | cons w ws =>
    unfold botInv
    rfl

theorem botInv_tryCreate (cfg : VirtualBotConfig) (bots : BotMap)
    (srv : ServerState) (b : VirtualBot) (reg : List GameType)
    (cr : Option String) (rs : RSeq) (tick : Nat) (hb : botInv b) :
    botInv (tryCreateGame cfg bots srv b reg cr rs tick).bot := by
  unfold tryCreateGame
  cases hq : reg.filter (fun g => canCreateGameType cfg bots srv g.gtype) with
  | nil => exact botInv_tryJoin srv b rs tick hb
  | cons g0 gs =>
    cases cr with
    | none => exact botInv_tryJoin srv b _ tick hb
    | some tid =>
      unfold botInv
      rfl

theorem leaveCurrentTable_table_id (srv : ServerState) (b : VirtualBot) :
    (leaveCurrentTable srv b).2.table_id = none := by
  cases htid : b.table_id with
  | none => rw [leaveCurrentTable_none srv b htid]
  | some tid =>
    cases hft : findTable srv.tables tid with
    | none => rw [leaveCurrentTable_noTable srv b tid htid hft]
    | some t =>
      cases hc : t.game.players.contains b.name with
      | true => rw [leaveCurrentTable_found srv b tid t htid hft hc]
      | false => rw [leaveCurrentTable_noPlayer srv b tid t htid hft hc]

theorem botInv_processLeaving (cfg : VirtualBotConfig) (srv : ServerState)
    (b : VirtualBot) (rs : RSeq) : botInv (processLeavingBot cfg srv b rs).bot := by
  unfold processLeavingBot
  by_cases h : (leaveCurrentTable srv b).2.logout_after_game = true
  · rw [if_pos h]
    exact botInv_takeOffline cfg _ _ rs (leaveCurrentTable_table_id srv b)
  · rw [if_neg h]
    unfold botInv
    show (leaveCurrentTable srv b).2.table_id.isSome = inTableState .online_idle
    rw [leaveCurrentTable_table_id srv b]
    rfl

theorem botInv_processOnlineIdle (cfg : VirtualBotConfig) (bots : BotMap)
    (srv : ServerState) (b : VirtualBot) (reg : List GameType)
    (cr : Option String) (rs : RSeq) (tick : Nat) (hb : botInv b)
    (hnone : b.table_id = none) :
    botInv (processOnlineIdleBot cfg bots srv b reg cr rs tick).bot := by
  unfold processOnlineIdleBot
  by_cases h1 : (bumpCounters b).think_ticks < thinkGateTicks
  · rw [if_pos h1]
    exact hb
  · rw [if_neg h1]
    by_cases h2 : (bumpCounters b).target_online_ticks ≤
        (bumpCounters b).online_ticks ∧ (takeR rs).1 % 100 < goOfflineChancePct
    · rw [if_pos h2]
      exact botInv_takeOffline cfg srv _ _ hnone
    · rw [if_neg h2]
      by_cases h3 : (takeR (takeR rs).2).1 % 100 < joinChancePct
      · rw [if_pos h3]
        exact botInv_tryJoin srv _ _ tick hb
      · rw [if_neg h3]
        exact botInv_tryCreate cfg bots srv _ reg cr _ tick hb

theorem botInv_processInGame (b : VirtualBot) (rs : RSeq) (hb : botInv b)
    (hsome : b.table_id.isSome = true) :
    botInv (processInGameBot b rs).1 := by
  unfold processInGameBot
  by_cases h1 : (bumpCounters b).think_ticks < thinkGateTicks
  · rw [if_pos h1]
    exact hb
  · rw [if_neg h1]
    by_cases h2 : (takeR rs).1 % 100 < leaveGameChancePct
    · rw [if_pos h2]
      unfold startLeavingGame botInv
      show b.table_id.isSome = inTableState .leaving_game
      rw [hsome]
      rfl
    · rw [if_neg h2]
      exact hb

theorem botInv_processBot (cfg : VirtualBotConfig) (bots0 : BotMap)
    (reg : List GameType) (srv : ServerState) (b : VirtualBot) (rs : RSeq)
    (tick : Nat) (hb : botInv b) :
    botInv (processBot cfg bots0 reg srv b rs tick).bot := by
  cases hstate : b.state with
  | offline =>
    have hnone : b.table_id = none := by
      apply isSome_false_eq_none
      have h := hb
      unfold botInv at h
      rw [hstate] at h
      exact h
    rw [processBot_offline cfg bots0 reg srv b rs tick hstate]
    unfold processOfflineBot
    by_cases hc : (decCooldown b).cooldown_ticks = 0
    · rw [if_pos hc]
      exact botInv_restore cfg srv (decCooldown b) rs hnone
    · rw [if_neg hc]
      exact hb
  | online_idle =>
    have hnone : b.table_id = none := by
      apply isSome_false_eq_none
      have h := hb
      unfold botInv at h
      rw [hstate] at h
      exact h
    rw [processBot_online_idle cfg bots0 reg srv b rs tick hstate]
    exact botInv_processOnlineIdle cfg bots0 srv b reg _ rs tick hb hnone
  | in_game =>
    have hsome : b.table_id.isSome = true := by
      have h := hb
      unfold botInv at h
      rw [hstate] at h
      exact h
    rw [processBot_in_game cfg bots0 reg srv b rs tick hstate]
    exact botInv_processInGame b rs hb hsome
  | leaving_game =>
    rw [processBot_leaving cfg bots0 reg srv b rs tick hstate]
    exact botInv_processLeaving cfg srv b rs

theorem invAll_processBots (cfg : VirtualBotConfig) (bots0 : BotMap)
    (reg : List GameType) (faulty : List String) (tick : Nat) :
    ∀ (bs : BotMap) (srv : ServerState) (rs : RSeq), invAll bs →
      invAll (processBots cfg bots0 reg faulty tick bs srv rs).1 := by
  intro bs
  induction bs with
  | nil => intro srv rs h; exact h
  | cons b t ih =>
    intro srv rs h
    rw [processBots_cons]
    by_cases hmem : b.name ∈ faulty
    · rw [if_pos hmem]
      intro c hc
      rcases List.mem_cons.mp hc with hcb | hcm
      · rw [hcb]
        exact h b (List.mem_cons_self b t)
      · exact ih srv rs (fun d hd => h d (List.mem_cons_of_mem b hd)) c hcm
    · rw [if_neg hmem]
      intro c hc
      rcases List.mem_cons.mp hc with hcb | hcm
      · rw [hcb]
        exact botInv_processBot cfg bots0 reg srv b rs tick
          (h b (List.mem_cons_self b t))
      · exact ih _ _ (fun d hd => h d (List.mem_cons_of_mem b hd)) c hcm

/-! ## The creation phase of `fill_server()` -/

theorem findBot_some_name (bots : BotMap) (n : String) (b : VirtualBot)
    (h : findBot bots n = some b) : b.name = n := by
  induction bots with
  | nil => simp [findBot] at h
  | cons c t ih =>
    by_cases hc : c.name = n
    · rw [findBot_cons, if_pos hc] at h
      rw [← Option.some.inj h]
      exact hc
    · rw [findBot_cons, if_neg hc] at h
      exact ih h

theorem findBot_append_left (bots l : BotMap) (m : String) (c : VirtualBot)
    (h : findBot bots m = some c) : findBot (bots ++ l) m = some c := by
  rw [findBot_append, h]
  rfl

theorem findBot_append_right (bots l : BotMap) (m : String)
    (h : findBot bots m = none) : findBot (bots ++ l) m = findBot l m := by
  rw [findBot_append, h]
  rfl

theorem findBot_append_none_right (bots l : BotMap) (m : String)
    (h : findBot l m = none) : findBot (bots ++ l) m = findBot bots m := by
  rw [findBot_append, h]
  cases findBot bots m <;> rfl

theorem findBot_append_none_split (bots l : BotMap) (m : String)
    (h : findBot (bots ++ l) m = none) : findBot bots m = none := by
  rw [findBot_append] at h
  cases hb : findBot bots m with
  | none => rfl
  | some c =>
    rw [hb] at h
    exact absurd h (by simp [Option.or])

theorem findBot_singleton_ne (b : VirtualBot) (m : String) (h : b.name ≠ m) :
    findBot [b] m = none := by
  rw [findBot_cons, if_neg h]
  rfl

theorem createBots_cons_skip (cfg : VirtualBotConfig) (srv : ServerState)
    (n : String) (ns : List String) (bots : BotMap) (rs : RSeq)
    (h : (isRealUser srv n || (findBot bots n).isSome) = true) :
    createBots cfg srv (n :: ns) bots rs = createBots cfg srv ns bots rs := by
  conv_lhs => unfold createBots
  rw [if_pos h]

theorem createBots_cons_new (cfg : VirtualBotConfig) (srv : ServerState)
    (n : String) (ns : List String) (bots : BotMap) (rs : RSeq)
    (h : (isRealUser srv n || (findBot bots n).isSome) = false) :
    createBots cfg srv (n :: ns) bots rs =
      { createBots cfg srv ns (bots ++ [freshBot cfg n (takeR rs).1])
          (takeR rs).2 with
        created := n :: (createBots cfg srv ns
          (bots ++ [freshBot cfg n (takeR rs).1]) (takeR rs).2).created } := by
  conv_lhs => unfold createBots
  rw [if_neg (by rw [h]; exact Bool.false_ne_true)]

theorem createBots_spec (cfg : VirtualBotConfig) (srv : ServerState) :
    ∀ (ns : List String) (bots : BotMap) (rs : RSeq),
      (∀ m c, findBot bots m = some c →
        findBot (createBots cfg srv ns bots rs).bots m = some c) ∧
      (∀ m, isRealUser srv m = true →
        findBot (createBots cfg srv ns bots rs).bots m = findBot bots m) ∧
      (∀ n ∈ (createBots cfg srv ns bots rs).created, isRealUser srv n = false) ∧
      (∀ n ∈ (createBots cfg srv ns bots rs).created, findBot bots n = none) ∧
      (createBots cfg srv ns bots rs).created.Nodup ∧
      (∀ n ∈ (createBots cfg srv ns bots rs).created, ∃ r,
        findBot (createBots cfg srv ns bots rs).bots n =
          some (freshBot cfg n r)) := by
  intro ns
  induction ns with
  | nil =>
    intro bots rs
    exact ⟨fun m c h => h, fun m _ => rfl, fun n hn => absurd hn (List.not_mem_nil n),
      fun n hn => absurd hn (List.not_mem_nil n), List.nodup_nil,
      fun n hn => absurd hn (List.not_mem_nil n)⟩
  | cons n ns ih =>
    intro bots rs
    by_cases hskip : (isRealUser srv n || (findBot bots n).isSome) = true
    · rw [createBots_cons_skip cfg srv n ns bots rs hskip]
      exact ih bots rs
    · have hnew := Bool.not_eq_true _ |>.mp hskip
      have hr : isRealUser srv n = false := by
        rcases Bool.or_eq_false_iff.mp hnew with ⟨h1, h2⟩
        exact h1
      have hfn : findBot bots n = none := by
        rcases Bool.or_eq_false_iff.mp hnew with ⟨h1, h2⟩
        exact isSome_false_eq_none _ h2
      rw [createBots_cons_new cfg srv n ns bots rs hnew]
      obtain ⟨ihS, ih1, ih2, ih3, ih4, ih5⟩ :=
        ih (bots ++ [freshBot cfg n (takeR rs).1]) (takeR rs).2
      have hfindB : findBot (bots ++ [freshBot cfg n (takeR rs).1]) n =
          some (freshBot cfg n (takeR rs).1) := by
        have hname : (freshBot cfg n (takeR rs).1).name = n := rfl
        rw [findBot_append_right bots _ n hfn, findBot_cons, if_pos hname]
      refine ⟨?_, ?_, ?_, ?_, ?_, ?_⟩
      · intro m c h
        exact ihS m c (findBot_append_left bots _ m c h)
      · intro m hm
        have hnm : n ≠ m := by
          intro he
          rw [he] at hr
          rw [hr] at hm
          exact Bool.false_ne_true hm
        rw [ih1 m hm]
        exact findBot_append_none_right bots _ m
          (findBot_singleton_ne _ m hnm)
      · intro k hk
        rcases List.mem_cons.mp hk with hkn | hkm
        · rw [hkn]; exact hr
        · exact ih2 k hkm
      · intro k hk
        rcases List.mem_cons.mp hk with hkn | hkm
        · rw [hkn]; exact hfn
        · exact findBot_append_none_split bots _ k (ih3 k hkm)
      · refine List.nodup_cons.mpr ⟨?_, ih4⟩
        intro hmem
        have := ih3 n hmem
        rw [hfindB] at this
        exact absurd this (by simp)
      · intro k hk
        rcases List.mem_cons.mp hk with hkn | hkm
        · refine ⟨(takeR rs).1, ?_⟩
          rw [hkn]
          exact ihS n _ hfindB
        · exact ih5 k hkm

/-! ## The bring-online phase of `fill_server()` -/

theorem restoreBotUser_noConflict (cfg : VirtualBotConfig) (srv : ServerState)
    (b : VirtualBot) (rs : RSeq) (h : isRealUser srv b.name = false) :
    restoreBotUser cfg srv b rs =
      { srv := { srv with
          users := setEntry srv.users b.name (.botUser b.name),
          userStates := setEntry srv.userStates b.name "main_menu",
          broadcasts := srv.broadcasts ++ [("user-online", b.name, "online.ogg")] },
        bot := { b with
          state := .online_idle, online_ticks := 0,
          target_online_ticks :=
            drawInt (takeR rs).1 cfg.min_online_ticks cfg.max_online_ticks },
        ok := true, rs := (takeR rs).2 } := by
  unfold restoreBotUser
  rw [if_neg (by rw [h]; exact Bool.false_ne_true)]

theorem bringOnline_cons_missing (cfg : VirtualBotConfig) (n : String)
    (ns : List String) (bots : BotMap) (srv : ServerState) (rs : RSeq)
    (h : findBot bots n = none) :
    bringOnline cfg (n :: ns) bots srv rs = bringOnline cfg ns bots srv rs := by
  conv_lhs => unfold bringOnline
  rw [h]

theorem bringOnline_cons_found (cfg : VirtualBotConfig) (n : String)
    (ns : List String) (bots : BotMap) (srv : ServerState) (rs : RSeq)
    (b : VirtualBot) (h : findBot bots n = some b) :
    bringOnline cfg (n :: ns) bots srv rs =
      { bringOnline cfg ns (setBot bots (restoreBotUser cfg srv b rs).bot)
          (restoreBotUser cfg srv b rs).srv (restoreBotUser cfg srv b rs).rs with
        count := (bringOnline cfg ns
            (setBot bots (restoreBotUser cfg srv b rs).bot)
            (restoreBotUser cfg srv b rs).srv
            (restoreBotUser cfg srv b rs).rs).count +
          (if (restoreBotUser cfg srv b rs).ok then 1 else 0) } := by
  conv_lhs => unfold bringOnline
  rw [h]

theorem mem_setBot (bots : BotMap) (b' c : VirtualBot) (h : c ∈ setBot bots b') :
    c = b' ∨ c ∈ bots := by
  unfold setBot at h
  rcases List.mem_map.mp h with ⟨d, hd, hdc⟩
  by_cases hdb : d.name = b'.name
  · rw [if_pos hdb] at hdc
    exact Or.inl hdc.symm
  · rw [if_neg hdb] at hdc
    rw [← hdc]
    exact Or.inr hd

theorem bringOnline_spec (cfg : VirtualBotConfig) :
    ∀ (names : List String) (bots : BotMap) (srv : ServerState) (rs : RSeq),
      (∀ n ∈ names, isRealUser srv n = false) →
      (∀ n ∈ names, (findBot bots n).isSome = true) →
      names.Nodup →
      (bringOnline cfg names bots srv rs).count = names.length ∧
      (∀ m, (∀ n ∈ names, n ≠ m) →
        findBot (bringOnline cfg names bots srv rs).bots m = findBot bots m) := by
  intro names
  induction names with
  | nil =>
    intro bots srv rs hreal hfound hnodup
    exact ⟨rfl, fun m hm => rfl⟩
  | cons n ns ih =>
    intro bots srv rs hreal hfound hnodup
    obtain ⟨b, hfb⟩ := Option.isSome_iff_exists.mp
      (hfound n (List.mem_cons_self n ns))
    have hbn : b.name = n := findBot_some_name bots n b hfb
    have hbreal : isRealUser srv b.name = false := by
      rw [hbn]
      exact hreal n (List.mem_cons_self n ns)
    rw [bringOnline_cons_found cfg n ns bots srv rs b hfb]
    have hok : (restoreBotUser cfg srv b rs).ok = true := by
      rw [restoreBotUser_noConflict cfg srv b rs hbreal]
    have hrealPres : ∀ m ∈ ns, isRealUser (restoreBotUser cfg srv b rs).srv m = false := by
      intro m hm
      rw [restoreBotUser_noConflict cfg srv b rs hbreal]
      exact isRealUser_setEntry_bot srv b.name m _ _ _ _
        (hreal m (List.mem_cons_of_mem n hm))
    have hfoundPres : ∀ m ∈ ns,
        (findBot (setBot bots (restoreBotUser cfg srv b rs).bot) m).isSome = true := by
      intro m hm
      rw [findBot_setBot_isSome]
      exact hfound m (List.mem_cons_of_mem n hm)
    obtain ⟨ihc, ihm⟩ := ih (setBot bots (restoreBotUser cfg srv b rs).bot)
      (restoreBotUser cfg srv b rs).srv (restoreBotUser cfg srv b rs).rs
      hrealPres hfoundPres (List.nodup_cons.mp hnodup).2
    constructor
    · show (bringOnline cfg ns _ _ _).count + (if (restoreBotUser cfg srv b rs).ok then 1 else 0) = ns.length + 1
      rw [ihc, hok, if_pos rfl]
    · intro m hm
      have hnm : n ≠ m := hm n (List.mem_cons_self n ns)
      have hname : (restoreBotUser cfg srv b rs).bot.name ≠ m := by
        rw [restoreBotUser_name cfg srv b rs, hbn]
        exact hnm
      show findBot (bringOnline cfg ns _ _ _).bots m = findBot bots m
      rw [ihm m (fun k hk => hm k (List.mem_cons_of_mem n hk))]
      exact findBot_setBot_ne bots _ m hname

theorem invAll_bringOnline (cfg : VirtualBotConfig) :
    ∀ (names : List String) (bots : BotMap) (srv : ServerState) (rs : RSeq),
      invAll bots →
      (∀ n ∈ names, ∀ b, findBot bots n = some b → b.table_id = none) →
      invAll (bringOnline cfg names bots srv rs).bots := by
  intro names
  induction names with
  | nil => intro bots srv rs hinv htable; exact hinv
  | cons n ns ih =>
    intro bots srv rs hinv htable
    cases hfb : findBot bots n with
    | none =>
      rw [bringOnline_cons_missing cfg n ns bots srv rs hfb]
      exact ih bots srv rs hinv
        (fun m hm => htable m (List.mem_cons_of_mem n hm))
    | some b =>
      have hnone : b.table_id = none :=
        htable n (List.mem_cons_self n ns) b hfb
      rw [bringOnline_cons_found cfg n ns bots srv rs b hfb]
      have hinvBot : botInv (restoreBotUser cfg srv b rs).bot :=
        botInv_restore cfg srv b rs hnone
      have htidBot : (restoreBotUser cfg srv b rs).bot.table_id = none :=
        restoreBotUser_table_id cfg srv b rs hnone
      apply ih
      · intro c hc
        rcases mem_setBot bots _ c hc with hcb | hcm
        · rw [hcb]
          exact hinvBot
        · exact hinv c hcm
      · intro m hm c hc
        by_cases hnm : (restoreBotUser cfg srv b rs).bot.name = m
        · cases hfm : findBot bots m with
          | none =>
            have h1 := findBot_setBot_isSome bots (restoreBotUser cfg srv b rs).bot m
            rw [hc, hfm] at h1
            simp [Option.isSome] at h1
          | some d =>
            have h2 := findBot_setBot_found bots (restoreBotUser cfg srv b rs).bot m
              hnm (by rw [hfm]; rfl)
            rw [hc] at h2
            rw [Option.some.inj h2]
            exact htidBot
        · rw [findBot_setBot_ne bots _ m hnm] at hc
          exact htable m (List.mem_cons_of_mem n hm) c hc

/-! ## `fill_server()` and the population invariant -/

theorem fillServer_def (cfg : VirtualBotConfig) (bots : BotMap)
    (srv : ServerState) (shuffled : List String) (rs : RSeq) :
    fillServer cfg bots srv shuffled rs =
      { bots := (bringOnline cfg
          ((createBots cfg srv shuffled bots rs).created.take
            ((createBots cfg srv shuffled bots rs).created.length / 2))
          (createBots cfg srv shuffled bots rs).bots srv
          (createBots cfg srv shuffled bots rs).rs).bots,
        srv := (bringOnline cfg
          ((createBots cfg srv shuffled bots rs).created.take
            ((createBots cfg srv shuffled bots rs).created.length / 2))
          (createBots cfg srv shuffled bots rs).bots srv
          (createBots cfg srv shuffled bots rs).rs).srv,
        rs := (bringOnline cfg
          ((createBots cfg srv shuffled bots rs).created.take
            ((createBots cfg srv shuffled bots rs).created.length / 2))
          (createBots cfg srv shuffled bots rs).bots srv
          (createBots cfg srv shuffled bots rs).rs).rs,
        added := (createBots cfg srv shuffled bots rs).created.length,
        online := (bringOnline cfg
          ((createBots cfg srv shuffled bots rs).created.take
            ((createBots cfg srv shuffled bots rs).created.length / 2))
          (createBots cfg srv shuffled bots rs).bots srv
          (createBots cfg srv shuffled bots rs).rs).count } := rfl

theorem createBots_invAll (cfg : VirtualBotConfig) (srv : ServerState) :
    ∀ (ns : List String) (bots : BotMap) (rs : RSeq), invAll bots →
      invAll (createBots cfg srv ns bots rs).bots := by
  intro ns
  induction ns with
  | nil => intro bots rs h; exact h
  | cons n ns ih =>
    intro bots rs h
    by_cases hskip : (isRealUser srv n || (findBot bots n).isSome) = true
    · rw [createBots_cons_skip cfg srv n ns bots rs hskip]
      exact ih bots rs h
    · have hnew := Bool.not_eq_true _ |>.mp hskip
      rw [createBots_cons_new cfg srv n ns bots rs hnew]
      show invAll (createBots cfg srv ns
        (bots ++ [freshBot cfg n (takeR rs).1]) (takeR rs).2).bots
      apply ih
      intro c hc
      rcases List.mem_append.mp hc with hcb | hcf
      · exact h c hcb
      · rw [List.mem_singleton.mp hcf]
        show botInv (freshBot cfg n (takeR rs).1)
        rfl

theorem invAll_fillServer (cfg : VirtualBotConfig) (bots : BotMap)
    (srv : ServerState) (shuffled : List String) (rs : RSeq)
    (h : invAll bots) : invAll (fillServer cfg bots srv shuffled rs).bots := by
  rw [fillServer_def]
  apply invAll_bringOnline
  · exact createBots_invAll cfg srv shuffled bots rs h
  · intro n hn b hfb
    obtain ⟨r, hfr⟩ := (createBots_spec cfg srv shuffled bots rs).2.2.2.2.2 n
      (List.take_subset _ _ hn)
    rw [hfb] at hfr
    rw [Option.some.inj hfr]
    rfl

theorem fillServer_bots (cfg : VirtualBotConfig) (bots : BotMap)
    (srv : ServerState) (shuffled : List String) (rs : RSeq) :
    (fillServer cfg bots srv shuffled rs).bots =
      (bringOnline cfg ((createBots cfg srv shuffled bots rs).created.take
        ((createBots cfg srv shuffled bots rs).created.length / 2))
        (createBots cfg srv shuffled bots rs).bots srv
        (createBots cfg srv shuffled bots rs).rs).bots := rfl

theorem fillServer_online (cfg : VirtualBotConfig) (bots : BotMap)
    (srv : ServerState) (shuffled : List String) (rs : RSeq) :
    (fillServer cfg bots srv shuffled rs).online =
      (bringOnline cfg ((createBots cfg srv shuffled bots rs).created.take
        ((createBots cfg srv shuffled bots rs).created.length / 2))
        (createBots cfg srv shuffled bots rs).bots srv
        (createBots cfg srv shuffled bots rs).rs).count := rfl

theorem fillServer_added (cfg : VirtualBotConfig) (bots : BotMap)
    (srv : ServerState) (shuffled : List String) (rs : RSeq) :
    (fillServer cfg bots srv shuffled rs).added =
      (createBots cfg srv shuffled bots rs).created.length := rfl

/-- C1: after every manager operation — the restore and take-offline
paths, a join attempt, a create attempt, the leaving-game transition,
the per-bot dispatch, a whole `process_tick()` (with any set of failing
bots), and `fill_server()` — every tracked bot record satisfies the
invariant that `table_id` is non-null iff its state is `IN_GAME` or
`LEAVING_GAME`. -/
theorem c1_table_id_invariant (cfg : VirtualBotConfig) (reg : List GameType)
    (faulty : List String) (bots : BotMap) (srv : ServerState)
    (b : VirtualBot) (cr : Option String) (rs : RSeq) (tick : Nat)
    (shuffled : List String) (hb : botInv b) (hnone : b.table_id = none)
    (hall : invAll bots) :
    botInv (restoreBotUser cfg srv b rs).bot ∧
    botInv (takeBotOffline cfg srv b rs).bot ∧
    botInv (tryJoinGame srv b rs tick).bot ∧
    botInv (tryCreateGame cfg bots srv b reg cr rs tick).bot ∧
    botInv (processLeavingBot cfg srv b rs).bot ∧
    botInv (processBot cfg bots reg srv b rs tick).bot ∧
    invAll (processTickF cfg reg faulty bots srv rs tick).1 ∧
    invAll (fillServer cfg bots srv shuffled rs).bots :=
  ⟨botInv_restore cfg srv b rs hnone,
   botInv_takeOffline cfg srv b rs hnone,
   botInv_tryJoin srv b rs tick hb,
   botInv_tryCreate cfg bots srv b reg cr rs tick hb,
   botInv_processLeaving cfg srv b rs,
   botInv_processBot cfg bots reg srv b rs tick hb,
   invAll_processBots cfg bots reg faulty tick bots srv rs hall,
   invAll_fillServer cfg bots srv shuffled rs hall⟩

/-- C1 at a concrete input: an offline bot named `Off` against the leave
scenario server, with `Zed` (in game at `T1`) tracked, `Zed` failing
during the tick, and one fresh name to fill. -/
theorem c1_invariant_witness :
    botInv (restoreBotUser {} serverZed { name := "Off", state := .offline } []).bot ∧
    botInv (takeBotOffline {} serverZed { name := "Off", state := .offline } []).bot ∧
    botInv (tryJoinGame serverZed { name := "Off", state := .offline } [] 0).bot ∧
    botInv (tryCreateGame {} [botZed] serverZed
      { name := "Off", state := .offline } [] none [] 0).bot ∧
    botInv (processLeavingBot {} serverZed
      { name := "Off", state := .offline } []).bot ∧
    botInv (processBot {} [botZed] [] serverZed
      { name := "Off", state := .offline } [] 0).bot ∧
    invAll (processTickF {} [] ["Zed"] [botZed] serverZed [] 0).1 ∧
    invAll (fillServer {} [botZed] serverZed ["BotA"] []).bots :=
  c1_table_id_invariant {} [] ["Zed"] [botZed] serverZed
    { name := "Off", state := .offline } none [] 0 ["BotA"]
    (by decide) (by decide) (by decide)

/-- C3: `fill_server()` leaves the tracked record of every name held by
a live real user untouched (such names are skipped entirely, never
shadowed), returns the `(bots_added, bots_brought_online)` pair with
exactly `floor(bots_added / 2)` of the newly created bots brought
online, and every newly created bot beyond the first half is left
`OFFLINE` with a cooldown drawn from
`[min_offline_ticks, max_offline_ticks]`. -/
theorem c3_fill_server_spec (cfg : VirtualBotConfig) (bots : BotMap)
    (srv : ServerState) (shuffled : List String) (rs : RSeq)
    (hcfg : cfg.min_offline_ticks ≤ cfg.max_offline_ticks) :
    (∀ n, isRealUser srv n = true →
      findBot (fillServer cfg bots srv shuffled rs).bots n = findBot bots n) ∧
    (fillServer cfg bots srv shuffled rs).online =
      (fillServer cfg bots srv shuffled rs).added / 2 ∧
    (∀ n ∈ (createBots cfg srv shuffled bots rs).created.drop
        ((createBots cfg srv shuffled bots rs).created.length / 2),
      ∃ b, findBot (fillServer cfg bots srv shuffled rs).bots n = some b ∧
        b.state = .offline ∧ b.table_id = none ∧
        cfg.min_offline_ticks ≤ b.cooldown_ticks ∧
        b.cooldown_ticks ≤ cfg.max_offline_ticks) := by
  obtain ⟨hS, h1, h2, h3, h4, h5⟩ := createBots_spec cfg srv shuffled bots rs
  have hrealN : ∀ n ∈ (createBots cfg srv shuffled bots rs).created.take
      ((createBots cfg srv shuffled bots rs).created.length / 2),
      isRealUser srv n = false :=
    fun n hn => h2 n (List.take_subset _ _ hn)
  have hfoundN : ∀ n ∈ (createBots cfg srv shuffled bots rs).created.take
      ((createBots cfg srv shuffled bots rs).created.length / 2),
      (findBot (createBots cfg srv shuffled bots rs).bots n).isSome = true := by
    intro n hn
    obtain ⟨r, hr⟩ := h5 n (List.take_subset _ _ hn)
    rw [hr]
    rfl
  have hnodupN : ((createBots cfg srv shuffled bots rs).created.take
      ((createBots cfg srv shuffled bots rs).created.length / 2)).Nodup :=
    List.Nodup.sublist (List.take_sublist _ _) h4
  obtain ⟨hcount, hmiss⟩ := bringOnline_spec cfg
    ((createBots cfg srv shuffled bots rs).created.take
      ((createBots cfg srv shuffled bots rs).created.length / 2))
    (createBots cfg srv shuffled bots rs).bots srv
    (createBots cfg srv shuffled bots rs).rs hrealN hfoundN hnodupN
  refine ⟨?_, ?_, ?_⟩
  · intro n hrealn
    have hneq : ∀ m ∈ (createBots cfg srv shuffled bots rs).created.take
        ((createBots cfg srv shuffled bots rs).created.length / 2), m ≠ n := by
      intro m hm he
      have hmf := hrealN m hm
      rw [he] at hmf
      exact Bool.false_ne_true (hmf.symm.trans hrealn)
    rw [fillServer_bots, hmiss n hneq]
    exact h1 n hrealn
  · rw [fillServer_online, fillServer_added, hcount, List.length_take]
    exact Nat.min_eq_left (Nat.div_le_self _ _)
  · intro n hn
    have hmemC : n ∈ (createBots cfg srv shuffled bots rs).created :=
      List.drop_subset _ _ hn
    have hneq : ∀ m ∈ (createBots cfg srv shuffled bots rs).created.take
        ((createBots cfg srv shuffled bots rs).created.length / 2), m ≠ n := by
      intro m hm he
      have hdisj := List.disjoint_take_drop h4
        (le_refl ((createBots cfg srv shuffled bots rs).created.length / 2))
      rw [he] at hm
      exact hdisj hm hn
    obtain ⟨r, hr⟩ := h5 n hmemC
    refine ⟨freshBot cfg n r, ?_, rfl, rfl, drawInt_le _ _ _,
      drawInt_ge _ _ _ hcfg⟩
    rw [fillServer_bots, hmiss n hneq]
    exact hr

/-- C3 at a concrete input: the fill scenario — real user `Taken` in
the registry, pool `Taken, BotA, BotB, BotC`: `Taken` is skipped and
left untracked, one of the three created bots comes online, and `BotC`
(in the remainder) is `OFFLINE` with its cooldown inside `[50, 60]`. -/
theorem c3_fill_server_witness :
    findBot (fillServer cfgFill [] serverTaken ["Taken", "BotA", "BotB", "BotC"]
      []).bots "Taken" = findBot [] "Taken" ∧
    (fillServer cfgFill [] serverTaken ["Taken", "BotA", "BotB", "BotC"]
      []).online =
      (fillServer cfgFill [] serverTaken ["Taken", "BotA", "BotB", "BotC"]
        []).added / 2 ∧
    (∃ b, findBot (fillServer cfgFill [] serverTaken
        ["Taken", "BotA", "BotB", "BotC"] []).bots "BotC" = some b ∧
      b.state = .offline ∧ b.table_id = none ∧
      cfgFill.min_offline_ticks ≤ b.cooldown_ticks ∧
      b.cooldown_ticks ≤ cfgFill.max_offline_ticks) :=
  ⟨(c3_fill_server_spec cfgFill [] serverTaken ["Taken", "BotA", "BotB", "BotC"]
      [] (by decide)).1 "Taken" (by decide),
   (c3_fill_server_spec cfgFill [] serverTaken ["Taken", "BotA", "BotB", "BotC"]
      [] (by decide)).2.1,
   (c3_fill_server_spec cfgFill [] serverTaken ["Taken", "BotA", "BotB", "BotC"]
      [] (by decide)).2.2 "BotC" (by decide)⟩

/-! ## The save/load round trip -/

theorem ofValue_value (s : VirtualBotState) :
    VirtualBotState.ofValue s.value = some s := by
  cases s <;> rfl

theorem loadRows_cons_parsed (cfg : VirtualBotConfig) (row : BotRow)
    (rows : List BotRow) (bots : BotMap) (srv : ServerState) (rs : RSeq)
    (st : VirtualBotState) (h : VirtualBotState.ofValue row.state = some st) :
    loadRows cfg (row :: rows) bots srv rs =
      (if st = .offline then loadRows cfg rows bots srv rs
       else if row.name ∈ cfg.names then
        if isRealUser srv row.name then
          loadRows cfg rows
            (bots ++ [{ botOfRow row st with
              state := .offline, table_id := none, online_ticks := 0,
              cooldown_ticks :=
                drawInt (takeR rs).1 cfg.min_offline_ticks cfg.max_offline_ticks }])
            srv (takeR rs).2
        else
          { loadRows cfg rows (bots ++ [botOfRow row st])
              { srv with
                users := setEntry srv.users row.name (.botUser row.name),
                userStates := setEntry srv.userStates row.name "main_menu",
                broadcasts :=
                  srv.broadcasts ++ [("user-online", row.name, "online.ogg")] }
              rs with
            count := (loadRows cfg rows (bots ++ [botOfRow row st])
              { srv with
                users := setEntry srv.users row.name (.botUser row.name),
                userStates := setEntry srv.userStates row.name "main_menu",
                broadcasts :=
                  srv.broadcasts ++ [("user-online", row.name, "online.ogg")] }
              rs).count + 1 }
       else loadRows cfg rows (bots ++ [botOfRow row st]) srv rs) := by
  conv_lhs => unfold loadRows
  rw [h]

theorem loadRows_cons_offline (cfg : VirtualBotConfig) (row : BotRow)
    (rows : List BotRow) (bots : BotMap) (srv : ServerState) (rs : RSeq)
    (h : VirtualBotState.ofValue row.state = some .offline) :
    loadRows cfg (row :: rows) bots srv rs = loadRows cfg rows bots srv rs := by
  rw [loadRows_cons_parsed cfg row rows bots srv rs .offline h, if_pos rfl]

theorem loadRows_cons_inpool (cfg : VirtualBotConfig) (row : BotRow)
    (rows : List BotRow) (bots : BotMap) (srv : ServerState) (rs : RSeq)
    (st : VirtualBotState) (h : VirtualBotState.ofValue row.state = some st)
    (hne : ¬ st = .offline) (hin : row.name ∈ cfg.names)
    (hreal : isRealUser srv row.name = false) :
    loadRows cfg (row :: rows) bots srv rs =
      { loadRows cfg rows (bots ++ [botOfRow row st])
          { srv with
            users := setEntry srv.users row.name (.botUser row.name),
            userStates := setEntry srv.userStates row.name "main_menu",
            broadcasts :=
              srv.broadcasts ++ [("user-online", row.name, "online.ogg")] }
          rs with
        count := (loadRows cfg rows (bots ++ [botOfRow row st])
          { srv with
            users := setEntry srv.users row.name (.botUser row.name),
            userStates := setEntry srv.userStates row.name "main_menu",
            broadcasts :=
              srv.broadcasts ++ [("user-online", row.name, "online.ogg")] }
          rs).count + 1 } := by
  rw [loadRows_cons_parsed cfg row rows bots srv rs st h, if_neg hne,
    if_pos hin, if_neg (by rw [hreal]; exact Bool.false_ne_true)]

theorem loadRows_cons_outpool (cfg : VirtualBotConfig) (row : BotRow)
    (rows : List BotRow) (bots : BotMap) (srv : ServerState) (rs : RSeq)
    (st : VirtualBotState) (h : VirtualBotState.ofValue row.state = some st)
    (hne : ¬ st = .offline) (hnotin : row.name ∉ cfg.names) :
    loadRows cfg (row :: rows) bots srv rs =
      loadRows cfg rows (bots ++ [botOfRow row st]) srv rs := by
  rw [loadRows_cons_parsed cfg row rows bots srv rs st h, if_neg hne,
    if_neg hnotin]

theorem loadRows_saveState (cfg : VirtualBotConfig) :
    ∀ (bots acc : BotMap) (srv : ServerState) (rs : RSeq),
      (∀ b ∈ bots, b.state ≠ .offline → isRealUser srv b.name = false) →
      (loadRows cfg (saveState bots) acc srv rs).bots =
        acc ++ (bots.filter (fun b => b.state ≠ .offline)).map
          (fun b => botOfRow (rowOfBot b) b.state) ∧
      (loadRows cfg (saveState bots) acc srv rs).count =
        ((bots.filter (fun b => b.state ≠ .offline)).filter
          (fun b => b.name ∈ cfg.names)).length := by
  intro bots
  induction bots with
  | nil =>
    intro acc srv rs hreal
    constructor
    · show acc = acc ++ []
      rw [List.append_nil]
    · rfl
  | cons b t ih =>
    intro acc srv rs hreal
    have hrow : saveState (b :: t) = rowOfBot b :: saveState t := rfl
    have hparse : VirtualBotState.ofValue (rowOfBot b).state = some b.state :=
      ofValue_value b.state
    rw [hrow]
    by_cases hb : b.state = .offline
    · rw [loadRows_cons_offline cfg (rowOfBot b) (saveState t) acc srv rs
        (by rw [hparse, hb])]
      have hfil : (b :: t).filter (fun c => c.state ≠ .offline) =
          t.filter (fun c => c.state ≠ .offline) :=
        List.filter_cons_of_neg (by simp [hb])
      rw [hfil]
      exact ih acc srv rs (fun c hc => hreal c (List.mem_cons_of_mem b hc))
    · have hfil : (b :: t).filter (fun c => c.state ≠ .offline) =
          b :: t.filter (fun c => c.state ≠ .offline) :=
        List.filter_cons_of_pos (by simp [hb])
      have hrealb : isRealUser srv b.name = false :=
        hreal b (List.mem_cons_self b t) hb
      by_cases hin : b.name ∈ cfg.names
      · rw [loadRows_cons_inpool cfg (rowOfBot b) (saveState t) acc srv rs
          b.state hparse hb hin hrealb]
        obtain ⟨ihb, ihc⟩ := ih (acc ++ [botOfRow (rowOfBot b) b.state])
          { srv with
            users := setEntry srv.users (rowOfBot b).name
              (.botUser (rowOfBot b).name),
            userStates := setEntry srv.userStates (rowOfBot b).name "main_menu",
            broadcasts := srv.broadcasts ++
              [("user-online", (rowOfBot b).name, "online.ogg")] }
          rs
          (fun c hc hcs => isRealUser_setEntry_bot srv b.name c.name _ _ _ _
            (hreal c (List.mem_cons_of_mem b hc) hcs))
        constructor
        · show (loadRows cfg (saveState t) _ _ _).bots = _
          rw [ihb, hfil, List.map_cons, List.append_assoc]
          rfl
        · show (loadRows cfg (saveState t) _ _ _).count + 1 = _
          rw [ihc, hfil]
          rw [List.filter_cons_of_pos (by simp [hin])]
          rfl
      · rw [loadRows_cons_outpool cfg (rowOfBot b) (saveState t) acc srv rs
          b.state hparse hb hin]
        obtain ⟨ihb, ihc⟩ := ih (acc ++ [botOfRow (rowOfBot b) b.state]) srv rs
          (fun c hc hcs => hreal c (List.mem_cons_of_mem b hc) hcs)
        constructor
        · rw [ihb, hfil, List.map_cons, List.append_assoc]
          rfl
        · rw [ihc, hfil]
          rw [List.filter_cons_of_neg (by simp [hin])]

theorem findBot_reload_notmem (l : BotMap) (n : String)
    (h : ∀ c ∈ l, c.name ≠ n) :
    findBot ((l.filter (fun c => c.state ≠ .offline)).map
      (fun c => botOfRow (rowOfBot c) c.state)) n = none := by
  induction l with
  | nil => rfl
  | cons c t ih =>
    have hcn : c.name ≠ n := h c (List.mem_cons_self c t)
    have htail := ih (fun d hd => h d (List.mem_cons_of_mem c hd))
    by_cases hP : c.state = .offline
    · rw [List.filter_cons_of_neg (by simp [hP])]
      exact htail
    · rw [List.filter_cons_of_pos (by simp [hP]), List.map_cons,
        findBot_cons]
      have hname : (botOfRow (rowOfBot c) c.state).name ≠ n := hcn
      rw [if_neg hname]
      exact htail

theorem findBot_map_reload (bots : BotMap) (b : VirtualBot)
    (hnodup : (bots.map (fun c => c.name)).Nodup) (hmem : b ∈ bots)
    (hP : b.state ≠ .offline) :
    findBot ((bots.filter (fun c => c.state ≠ .offline)).map
      (fun c => botOfRow (rowOfBot c) c.state)) b.name =
      some (botOfRow (rowOfBot b) b.state) := by
  induction bots with
  | nil => cases hmem
  | cons c t ih =>
    have hnd := List.nodup_cons.mp (by
      rw [List.map_cons] at hnodup
      exact hnodup)
    rcases List.mem_cons.mp hmem with hbc | hbt
    · rw [hbc]
      rw [List.filter_cons_of_pos (by rw [← hbc]; simp [hP]), List.map_cons,
        findBot_cons]
      rw [if_pos (show (botOfRow (rowOfBot c) c.state).name = c.name from rfl)]
    · have hcb : c.name ≠ b.name := by
        intro he
        exact hnd.1 (he ▸ List.mem_map_of_mem (fun d => d.name) hbt)
      by_cases hPc : c.state = .offline
      · rw [List.filter_cons_of_neg (by simp [hPc])]
        exact ih hnd.2 hbt
      · rw [List.filter_cons_of_pos (by simp [hPc]), List.map_cons,
          findBot_cons]
        have hname : (botOfRow (rowOfBot c) c.state).name ≠ b.name := hcb
        rw [if_neg hname]
        exact ih hnd.2 hbt

theorem findBot_map_reload_none (bots : BotMap) (b : VirtualBot)
    (hnodup : (bots.map (fun c => c.name)).Nodup) (hmem : b ∈ bots)
    (hP : b.state = .offline) :
    findBot ((bots.filter (fun c => c.state ≠ .offline)).map
      (fun c => botOfRow (rowOfBot c) c.state)) b.name = none := by
  induction bots with
  | nil => cases hmem
  | cons c t ih =>
    have hnd := List.nodup_cons.mp (by
      rw [List.map_cons] at hnodup
      exact hnodup)
    rcases List.mem_cons.mp hmem with hbc | hbt
    · rw [List.filter_cons_of_neg (by rw [← hbc]; simp [hP])]
      apply findBot_reload_notmem
      intro d hd he
      rw [hbc] at he
      exact hnd.1 (he ▸ List.mem_map_of_mem (fun e => e.name) hd)
    · have hcb : c.name ≠ b.name := by
        intro he
        exact hnd.1 (he ▸ List.mem_map_of_mem (fun d => d.name) hbt)
      by_cases hPc : c.state = .offline
      · rw [List.filter_cons_of_neg (by simp [hPc])]
        exact ih hnd.2 hbt
      · rw [List.filter_cons_of_pos (by simp [hPc]), List.map_cons,
          findBot_cons]
        rw [if_neg (show (botOfRow (rowOfBot c) c.state).name ≠ b.name from hcb)]
        exact ih hnd.2 hbt

/-- C4: the persistence round trip — `save_state()`, clearing the bot
map, then `load_state()` — reconstructs a record with the identical
`(name, state, online_ticks, target_online_ticks)` tuple for every bot
whose saved state was not `OFFLINE`, does not recreate any bot whose
saved state was `OFFLINE`, and returns the count of bots successfully
restored online (here: the saved non-`OFFLINE` bots whose names are in
the configured pool, all of which restore without conflict). -/
theorem c4_save_load_round_trip (cfg : VirtualBotConfig) (bots : BotMap)
    (srv : ServerState) (rs : RSeq)
    (hnodup : (bots.map (fun b => b.name)).Nodup)
    (hreal : ∀ b ∈ bots, b.state ≠ .offline → isRealUser srv b.name = false) :
    (∀ b ∈ bots, b.state ≠ .offline →
      findBot (loadState cfg (saveState bots) srv rs).bots b.name =
        some (botOfRow (rowOfBot b) b.state) ∧
      (botOfRow (rowOfBot b) b.state).name = b.name ∧
      (botOfRow (rowOfBot b) b.state).state = b.state ∧
      (botOfRow (rowOfBot b) b.state).online_ticks = b.online_ticks ∧
      (botOfRow (rowOfBot b) b.state).target_online_ticks =
        b.target_online_ticks) ∧
    (∀ b ∈ bots, b.state = .offline →
      findBot (loadState cfg (saveState bots) srv rs).bots b.name = none) ∧
    (loadState cfg (saveState bots) srv rs).count =
      ((bots.filter (fun b => b.state ≠ .offline)).filter
        (fun b => b.name ∈ cfg.names)).length := by
  obtain ⟨hbots, hcount⟩ := loadRows_saveState cfg bots [] srv rs hreal
  refine ⟨?_, ?_, hcount⟩
  · intro b hb hP
    refine ⟨?_, rfl, rfl, rfl, rfl⟩
    unfold loadState
    rw [hbots, List.nil_append]
    exact findBot_map_reload bots b hnodup hb hP
  · intro b hb hP
    unfold loadState
    rw [hbots, List.nil_append]
    exact findBot_map_reload_none bots b hnodup hb hP

/-- C4 at a concrete input: the persistence scenario of the tests —
`Alpha` online with counters `(5, 10)` round-trips identically, the
`OFFLINE` bot `Sleepy` is not restored, and one bot is reported
restored online. -/
theorem c4_round_trip_witness :
    findBot (loadState cfgAlpha (saveState [botAlpha, botSleepy])
        emptyServer []).bots "Alpha" =
      some (botOfRow (rowOfBot botAlpha) .online_idle) ∧
    findBot (loadState cfgAlpha (saveState [botAlpha, botSleepy])
        emptyServer []).bots "Sleepy" = none ∧
    (loadState cfgAlpha (saveState [botAlpha, botSleepy])
        emptyServer []).count =
      (([botAlpha, botSleepy].filter
          (fun b : VirtualBot => b.state ≠ .offline)).filter
        (fun b => b.name ∈ cfgAlpha.names)).length :=
  ⟨((c4_save_load_round_trip cfgAlpha [botAlpha, botSleepy] emptyServer []
      (by decide) (by decide)).1 botAlpha (by decide) (by decide)).1,
   (c4_save_load_round_trip cfgAlpha [botAlpha, botSleepy] emptyServer []
      (by decide) (by decide)).2.1 botSleepy (by decide) (by decide),
   (c4_save_load_round_trip cfgAlpha [botAlpha, botSleepy] emptyServer []
      (by decide) (by decide)).2.2⟩

end PlayVnt
